import Mathlib

/-!
Verification of the Consistency & Recovery Subsystem of the agent-network
repository.  The Python sources under `tools/` are shallowly embedded:
MongoDB documents become association lists of field values, each stateful
procedure becomes an explicit state-passing function, `datetime` values are
integer timestamps (seconds), and the external store/queue gateways are
modelled exactly at the granularity the code uses them.
-/

namespace AgentNetwork

/-- A BSON-ish value.  Python `datetime` objects are `vDt`; ISO-formatted
datetime *strings* (which the code produces with `.isoformat()` and parses
with `datetime.fromisoformat`) are `vDtStr`, carrying the timestamp they
denote; lexicographic order of equal-format ISO strings agrees with
chronological order, so Mongo string comparisons on them compare the
timestamps.  Arrays and embedded objects are encoded as cons cells
(`vListNil`/`vListCons`, `vObjNil`/`vObjCons`) so that decidable equality
derives. -/
inductive Value where
  | vStr (s : String)
  | vDt (t : Int)
  | vDtStr (t : Int)
  | vInt (n : Int)
  | vBool (b : Bool)
  | vNull
  | vListNil
  | vListCons (hd tl : Value)
  | vObjNil
  | vObjCons (k : String) (v tl : Value)
deriving DecidableEq, Repr

/-- A document: ordered field list, unique keys. -/
abbrev Doc := List (String × Value)

namespace Value

/-- Build an embedded-object value from a field list. -/
def vObj : List (String × Value) → Value
  | [] => vObjNil
  | (k, v) :: rest => vObjCons k v (vObj rest)

/-- Build an array value from a value list. -/
def vList : List Value → Value
  | [] => vListNil
  | v :: rest => vListCons v (vList rest)

/-- Key lookup inside an embedded object (`obj.get(k)` / `obj[k]`). -/
def objLookup : Value → String → Option Value
  | vObjCons k' v rest, k => if k' = k then some v else objLookup rest k
  | _, _ => none

/-- Source `$set` of a key inside an embedded object. -/
def objSet : Value → String → Value → Value
  | vObjCons k' v' rest, k, v =>
      if k' = k then vObjCons k v rest else vObjCons k' v' (objSet rest k v)
  | _, k, v => vObjCons k v vObjNil

/-- Materialize an array value as a Lean list (the code iterates such
arrays); non-arrays yield `[]`. -/
def elems : Value → List Value
  | vListCons hd tl => hd :: elems tl
  | _ => []

/-- Python truthiness for the values the code tests with `if x:`. -/
def truthy : Value → Bool
  | vStr s => !s.isEmpty
  | vDt _ => true
  | vDtStr _ => true
  | vInt n => n != 0
  | vBool b => b
  | vNull => false
  | vListNil => false
  | vListCons _ _ => true
  | vObjNil => false
  | vObjCons _ _ _ => true

/-- Source `isinstance(x, str)`: both plain strings and ISO datetime strings are
Python `str`. -/
def isStr : Value → Bool
  | vStr _ => true
  | vDtStr _ => true
  | _ => false

/-- Source `datetime.fromisoformat(x.replace('Z', '+00:00'))`: succeeds exactly on
datetime-formatted strings, raising (`none`) otherwise. -/
def fromIso : Value → Option Int
  | vDtStr t => some t
  | _ => none

end Value

/-- Field access, `doc.get(k)` / `doc[k]` when present. -/
def getField (d : Doc) (k : String) : Option Value :=
  d.lookup k

/-- Source `doc.get(k, default)`. -/
def getFieldD (d : Doc) (k : String) (v : Value) : Value :=
  (getField d k).getD v

/-- Mongo `$set` of a single top-level field. -/
def setTop (d : Doc) (k : String) (v : Value) : Doc :=
  match d with
  | [] => [(k, v)]
  | (k', v') :: rest =>
      if k' = k then (k, v) :: rest else (k', v') :: setTop rest k v

/-- Mongo `$unset` of a top-level field. -/
def unsetTop (d : Doc) (k : String) : Doc :=
  d.filter (fun f => f.1 ≠ k)

/-- Mongo `$set` of a dotted path `k1.k2` (used for `metadata.completed_at`
and `metadata.started_at`); creates the intermediate object if absent. -/
def setNested (d : Doc) (k1 k2 : String) (v : Value) : Doc :=
  match getField d k1 with
  | some o => setTop d k1 (o.objSet k2 v)
  | none => setTop d k1 (Value.vObjNil.objSet k2 v)

/-- Mongo `$set` of several top-level fields, in order. -/
def setTops (d : Doc) (kvs : List (String × Value)) : Doc :=
  kvs.foldl (fun acc kv => setTop acc kv.1 kv.2) d

/-! ## Transaction Coordinator (`tools/transaction_manager.py`)

`TransactionManager.execute_transaction` executes an ordered operation list
inside one store-native session.  The store gateway's per-operation behaviour
(the `pymongo` collection calls in `_execute_operation`, plus the commit) is
the external collaborator; it is modelled as a function from the attempt
number and the session's staged store to either a new staged store or a
raised error.  Effects become visible only when the session commits; an
exception aborts the session, discarding the staged writes. -/

/-- Errors raised to `execute_transaction`: a `pymongo.errors.OperationFailure`
carrying its error labels, or any other Python exception. -/
inductive MongoError where
  | opFailure (labels : List String)
  | otherException
deriving DecidableEq, Repr

/-- Source `e.has_error_label(l)`. -/
def MongoError.hasErrorLabel : MongoError → String → Bool
  | .opFailure labels, l => labels.contains l
  | .otherException, _ => false

/-- One transaction operation's effect on the staged store, possibly varying
with the attempt number (transient conflicts depend on concurrent activity). -/
abbrev OpBehavior (σ : Type) := Nat → σ → Except MongoError σ

/-- Execute all operations of one attempt in order inside the session
(the `for op in operations` loop followed by `session.commit_transaction()`);
the first raised error aborts the attempt. -/
def runOps {σ : Type} (ops : List (OpBehavior σ)) (attempt : Nat) (s : σ) :
    Except MongoError σ :=
  match ops with
  | [] => .ok s
  | op :: rest =>
      match op attempt s with
      | .ok s' => runOps rest attempt s'
      | .error e => .error e

/-- Result of `execute_transaction`: the returned boolean, the store visible
afterwards, the backoff sleeps performed (in seconds), and how many attempts
actually executed. -/
structure TxnResult (σ : Type) where
  committed : Bool
  store : σ
  sleeps : List ℚ
  attempts : Nat
deriving DecidableEq, Repr

/-- Source `self.retry_delay = 0.1  # seconds` -/
def retryDelay : ℚ := 1/10

/-- Source `self.max_retry_attempts = 3` -/
def maxRetryAttempts : Nat := 3

/-- The `while attempt < self.max_retry_attempts` loop of
`execute_transaction`, with `fuel = max_retry_attempts - attempt`.
A `TransientTransactionError` label increments `attempt` and sleeps
`retry_delay * attempt` (the incremented value); an
`UnknownTransactionCommitResult` label increments `attempt` and retries with
no sleep; any other error returns `False` with the session aborted. -/
def execLoop {σ : Type} (ops : List (OpBehavior σ)) (s : σ) :
    Nat → Nat → TxnResult σ
  | _, 0 => ⟨false, s, [], 0⟩
  | attempt, fuel + 1 =>
      match runOps ops attempt s with
      | .ok s' => ⟨true, s', [], 1⟩
      | .error e =>
          if e.hasErrorLabel "TransientTransactionError" then
            let r := execLoop ops s (attempt + 1) fuel
            ⟨r.committed, r.store, retryDelay * (attempt + 1) :: r.sleeps,
              r.attempts + 1⟩
          else if e.hasErrorLabel "UnknownTransactionCommitResult" then
            let r := execLoop ops s (attempt + 1) fuel
            ⟨r.committed, r.store, r.sleeps, r.attempts + 1⟩
          else
            ⟨false, s, [], 1⟩

/-- Source `TransactionManager.execute_transaction`. -/
def execute_transaction {σ : Type} (ops : List (OpBehavior σ)) (s : σ) :
    TxnResult σ :=
  execLoop ops s 0 maxRetryAttempts

/-! ## Store state and `StateManager` (`tools/state_manager.py`)

The collections the subsystem touches.  `task_id` and `agent_id` carry
unique indexes (`StateManager._setup_collections`), so `insert_one` of a
duplicate `task_id` raises `DuplicateKeyError`. -/

structure Db where
  tasks : List Doc
  agent_states : List Doc
  activity_logs : List Doc
  sync_status : List Doc
deriving DecidableEq, Repr

/-- Source `collection.find_one(filter)`: first matching document. -/
def findOne (docs : List Doc) (p : Doc → Bool) : Option Doc :=
  docs.find? p

/-- Source `collection.update_one(filter, {'$set'/...})`: rewrite the first
matching document; `modified_count > 0` iff a document matched and the
update actually changed it. -/
def updateOne (docs : List Doc) (p : Doc → Bool) (f : Doc → Doc) :
    Bool × List Doc :=
  match docs with
  | [] => (false, [])
  | d :: rest =>
      if p d then (if f d = d then false else true, f d :: rest)
      else
        let r := updateOne rest p f
        (r.1, d :: r.2)

/-- Source `collection.update_one(filter, {'$set': ...}, upsert=True)`: update the
first match, or insert `newDoc` when nothing matches. -/
def upsertOne (docs : List Doc) (p : Doc → Bool) (f : Doc → Doc)
    (newDoc : Doc) : List Doc :=
  if docs.any p then (updateOne docs p f).2 else docs ++ [newDoc]

/-- Source `StateManager.log_activity`: append an activity-log entry (the insert is
acknowledged). -/
def log_activity (db : Db) (agent_id activity_type : String) (details : Value)
    (now : Int) : Db :=
  { db with activity_logs := db.activity_logs ++
      [[("agent_id", Value.vStr agent_id),
        ("activity_type", Value.vStr activity_type),
        ("timestamp", Value.vDt now),
        ("details", details)]] }

/-- The `$set` document `update_data` of `update_task_state`: `status`,
`updated_at`, and — only when the metadata argument is non-empty (Python
truthiness) — the whole `metadata` field. -/
def taskStateUpdate (new_state : String) (metadata : List (String × Value))
    (now : Int) : List (String × Value) :=
  [("status", Value.vStr new_state), ("updated_at", Value.vDt now)] ++
    (if metadata.isEmpty then [] else [("metadata", Value.vObj metadata)])

/-- Filter `{'task_id': task_id}`. -/
def taskIdIs (task_id : String) (d : Doc) : Bool :=
  getField d "task_id" = some (Value.vStr task_id)

/-- Source `StateManager.update_task_state`: `$set` of `taskStateUpdate` on
the first task matching `task_id`; on modification an activity-log entry is
appended and `True` returned. -/
def update_task_state (db : Db) (task_id new_state : String)
    (metadata : List (String × Value)) (now : Int) : Bool × Db :=
  if task_id = "" then (false, db)
  else if new_state = "" then (false, db)
  else
    let r := updateOne db.tasks (taskIdIs task_id)
      (fun d => setTops d (taskStateUpdate new_state metadata now))
    let db' : Db := { db with tasks := r.2 }
    if r.1 then
      (true, log_activity db' "system" "task_state_change"
        (Value.vObj [("task_id", Value.vStr task_id),
                     ("old_state", Value.vStr "unknown"),
                     ("new_state", Value.vStr new_state),
                     ("metadata", Value.vObj metadata)]) now)
    else (false, db')

/-- Source `StateManager.update_agent_state`: logs a `state_update` activity, then
upserts the agent document with `$set` of the optional `status`, the
metadata entries *flattened into top-level fields*, `last_updated` and
`agent_id`. -/
def update_agent_state (db : Db) (agent_id : String) (status : Option String)
    (metadata : List (String × Value)) (now : Int) : Bool × Db :=
  if agent_id = "" then (false, db)
  else
    let state_update : List (String × Value) :=
      (match status with
       | some s => [("status", Value.vStr s)]
       | none => []) ++ metadata ++
        [("last_updated", Value.vDt now), ("agent_id", Value.vStr agent_id)]
    let db₁ := log_activity db agent_id "state_update"
      (Value.vObj [("status", match status with
                              | some s => Value.vStr s
                              | none => Value.vNull),
                   ("metadata", Value.vObj metadata)]) now
    (true, { db₁ with agent_states :=
        (upsertOne db₁.agent_states
          (fun d => getField d "agent_id" = some (Value.vStr agent_id))
          (fun d => setTops d state_update)
          (setTops [] state_update)) })

/-- Source `StateManager.get_agent_state`: `find_one({'agent_id': agent_id})`. -/
def get_agent_state (db : Db) (agent_id : String) : Option Doc :=
  findOne db.agent_states
    (fun d => getField d "agent_id" = some (Value.vStr agent_id))

/-- Source `StateManager.get_task`: `find_one({'task_id': task_id})`. -/
def get_task (db : Db) (task_id : String) : Option Doc :=
  findOne db.tasks (taskIdIs task_id)

/-- The query filter of `StateManager.get_agent_tasks`: `assigned_to`
equals the agent and, when a status list is supplied, `status` is in it. -/
def agentTasksPred (agent_id : String) (states : List String) (d : Doc) :
    Bool :=
  getField d "assigned_to" = some (Value.vStr agent_id) &&
    (states.isEmpty ||
      match getField d "status" with
      | some (Value.vStr s) => states.contains s
      | _ => false)

/-- Source `StateManager.get_agent_tasks`: tasks matching
`agentTasksPred`.  (The source additionally sorts by `created_at`
descending, which does not affect which tasks are returned.) -/
def get_agent_tasks (db : Db) (agent_id : String) (states : List String) :
    List Doc :=
  if agent_id = "" then []
  else db.tasks.filter (agentTasksPred agent_id states)

/-- Source `StateManager.create_task`: stamp `created_at`/`updated_at`, generate a
`task_id` when absent, and insert; the unique index on `task_id` makes a
duplicate insert raise `DuplicateKeyError`, returning `None`. -/
def create_task (db : Db) (task_data : Doc) (now : Int) : Option Value × Db :=
  let d₁ := setTops task_data
    [("created_at", Value.vDt now), ("updated_at", Value.vDt now)]
  let d₂ :=
    if (getField d₁ "task_id").isSome then d₁
    else setTop d₁ "task_id" (Value.vStr ("task_" ++ toString (now * 1000)))
  if db.tasks.any (fun t => getField t "task_id" = getField d₂ "task_id") then
    (none, db)
  else
    (getField d₂ "task_id", { db with tasks := db.tasks ++ [d₂] })

/-! ## Message queue gateway

Modelled from the spec: `tools/message_broker.py` is not in the sources; per
the spec the gateway provides durable named point-to-point queues with
publish and a non-destructive depth/peek query.  A queue state maps queue
names to their pending messages; `publish_message` appends and reports
success. -/

/-- Queue contents, by queue name. -/
abbrev Queues := List (String × List Doc)

/-- Modelled from the spec: the three named queues the synchronizer
monitors (`MessageBroker.MANAGER_QUEUE`, `DEVELOPER_QUEUE`,
`WORK_REQUEST_QUEUE`). -/
def MANAGER_QUEUE : String := "manager_queue"
def DEVELOPER_QUEUE : String := "developer_queue"
def WORK_REQUEST_QUEUE : String := "work_request_queue"

/-- Modelled from the spec: `MessageBroker.publish_message` delivers the
message to the named queue and returns `True`. -/
def publish_message (qs : Queues) (name : String) (msg : Doc) :
    Bool × Queues :=
  if qs.any (fun q => q.1 = name) then
    (true, qs.map (fun q => if q.1 = name then (q.1, q.2 ++ [msg]) else q))
  else
    (true, qs ++ [(name, [msg])])

/-! ## State Synchronization Service (`tools/state_sync_service.py`) -/

/-- Value extraction for identifiers that the service passes on to
`StateManager` string parameters; task and agent ids are strings in every
document the system writes. -/
def Value.asStr : Value → Option String
  | .vStr s => some s
  | _ => none

/-- Inconsistency categories of `state_sync_service.InconsistencyType`. -/
inductive SyncIncType where
  | taskInQueueNotDb
  | taskInDbNotQueue
  | stateMismatch
  | stalledTask
  | orphanedMessage
  | agentUnresponsive
deriving DecidableEq, Repr

/-- A detected inconsistency (`state_sync_service.Inconsistency`); the
mutable `resolved`/`resolution` bookkeeping fields only feed
`get_sync_report` and are not modelled. -/
structure SyncInc where
  type : SyncIncType
  task_id : Option Value
  agent_id : Option Value
  details : Doc
  severity : String
  detected_at : Int
deriving DecidableEq, Repr

/-- Source `self.stall_timeout = ... 3600  # 1 hour`. -/
def stallTimeout : Int := 3600

/-- Source `self.heartbeat_timeout = ... 300  # 5 minutes`. -/
def heartbeatTimeout : Int := 300

/-- Source `StateSyncService._peek_queue_messages`: builds an empty
`messages` list, only queries the queue depth for a debug log, and returns
the list — so it reports no messages for any queue state. -/
def peek_queue_messages (_qs : Queues) (_queue_name : String) : List Doc :=
  []

/-- Source `StateSyncService._get_all_queue_messages`: peek every monitored
queue. -/
def get_all_queue_messages (qs : Queues) : List (String × List Doc) :=
  [MANAGER_QUEUE, DEVELOPER_QUEUE, WORK_REQUEST_QUEUE].map
    (fun q => (q, peek_queue_messages qs q))

/-- Python dict insertion: replace the value of an existing key in place,
else append. -/
def dictInsert (m : List (Value × Doc)) (k : Value) (v : Doc) :
    List (Value × Doc) :=
  if m.any (fun e => e.1 = k) then
    m.map (fun e => if e.1 = k then (k, v) else e)
  else m ++ [(k, v)]

/-- Loop of `_get_active_database_tasks`: index active tasks by `task_id`;
a task without the key raises `KeyError`, aborting the loop with the
entries collected so far. -/
def activeTasksLoop : List Doc → List (Value × Doc) → List (Value × Doc)
  | [], acc => acc
  | t :: rest, acc =>
      match getField t "task_id" with
      | some k => activeTasksLoop rest (dictInsert acc k t)
      | none => acc

/-- Source `StateSyncService._get_active_database_tasks`: tasks with status
in `['created', 'assigned', 'in_progress']`, as a dict keyed by task id. -/
def get_active_database_tasks (db : Db) : List (Value × Doc) :=
  activeTasksLoop
    (db.tasks.filter (fun t =>
      match getField t "status" with
      | some (Value.vStr s) => ["created", "assigned", "in_progress"].contains s
      | _ => false))
    []

/-- Orphan-message detection loop of `check_queue_database_consistency`:
a queued message whose truthy `task_id` has no active database task. -/
def orphanIncs (queueMessages : List (String × List Doc))
    (dbTaskIds : List Value) (now : Int) : List SyncInc :=
  queueMessages.flatMap (fun q =>
    (q.2.filter (fun m =>
        (getFieldD m "task_id" Value.vNull).truthy &&
          !dbTaskIds.contains (getFieldD m "task_id" Value.vNull))).map
      (fun m =>
        { type := .taskInQueueNotDb
          task_id := some (getFieldD m "task_id" Value.vNull)
          agent_id := some (getFieldD m "to_agent" Value.vNull)
          details := [("queue", Value.vStr q.1), ("message", Value.vObj m)]
          severity := "high"
          detected_at := now }))

/-- Missing-message detection loop of `check_queue_database_consistency`:
an `assigned` database task with no queued message carrying its id; a task
without a `status` key raises `KeyError`, aborting with the issues found so
far. -/
def missingMsgIncs (dbTasks : List (Value × Doc)) (queueTaskIds : List Value)
    (now : Int) : List SyncInc :=
  match dbTasks with
  | [] => []
  | (tid, task) :: rest =>
      match getField task "status" with
      | none => []
      | some st =>
          (if st = Value.vStr "assigned" && !queueTaskIds.contains tid then
            [{ type := .taskInDbNotQueue
               task_id := some tid
               agent_id := some (getFieldD task "assigned_to" Value.vNull)
               details := [("task", Value.vObj task)]
               severity := "medium"
               detected_at := now }]
          else []) ++ missingMsgIncs rest queueTaskIds now

/-- Source `StateSyncService.check_queue_database_consistency`. -/
def check_queue_database_consistency (db : Db) (qs : Queues) (now : Int) :
    List SyncInc :=
  let queue_messages := get_all_queue_messages qs
  let db_tasks := get_active_database_tasks db
  let queue_task_ids :=
    (queue_messages.flatMap Prod.snd).filterMap (fun m =>
      let v := getFieldD m "task_id" Value.vNull
      if v.truthy then some v else none)
  orphanIncs queue_messages (db_tasks.map Prod.fst) now ++
    missingMsgIncs db_tasks queue_task_ids now

/-- Source `StateSyncService._calculate_duration`: seconds from an ISO start
time to now, `0` when parsing fails. -/
def calculate_duration (startTime : Value) (now : Int) : Int :=
  match startTime.fromIso with
  | some t => now - t
  | none => 0

/-- Stalled-task issue construction; a matching task lacking `task_id`
raises `KeyError`, aborting with the issues found so far. -/
def stalledIncs (tasks : List Doc) (now : Int) : List SyncInc :=
  match tasks with
  | [] => []
  | t :: rest =>
      match getField t "task_id" with
      | none => []
      | some tid =>
          let started := (getField t "metadata").bind
            (fun m => m.objLookup "started_at") |>.getD Value.vNull
          { type := .stalledTask
            task_id := some tid
            agent_id := some (getFieldD t "assigned_to" Value.vNull)
            details := [("started_at", started),
                        ("duration", Value.vInt (calculate_duration started now))]
            severity := "high"
            detected_at := now } :: stalledIncs rest now

/-- Source `StateSyncService.check_stalled_tasks`: tasks `in_progress` whose
string-typed `metadata.started_at` is older than the stall threshold (the
Mongo `$lt` against an ISO string compares only string-typed values, and ISO
order is chronological order). -/
def check_stalled_tasks (db : Db) (now : Int) : List SyncInc :=
  stalledIncs
    (db.tasks.filter (fun t =>
      getField t "status" = some (Value.vStr "in_progress") &&
        (match (getField t "metadata").bind (fun m => m.objLookup "started_at") with
         | some (Value.vDtStr ts) => ts < now - stallTimeout
         | _ => false)))
    now

/-- Per-agent loop of `check_agent_health` over the fixed agent list; a
truthy but unparseable `last_heartbeat` raises inside the `try`, aborting
with the issues found so far. -/
def agentHealthLoop (db : Db) (now : Int) :
    List String → List SyncInc → List SyncInc
  | [], acc => acc
  | aid :: rest, acc =>
      match get_agent_state db aid with
      | none => agentHealthLoop db now rest acc
      | some st =>
          let hb := getFieldD st "last_heartbeat" Value.vNull
          if hb.truthy then
            match hb.fromIso with
            | none => acc
            | some t =>
                if t < now - heartbeatTimeout then
                  agentHealthLoop db now rest (acc ++
                    [{ type := .agentUnresponsive
                       task_id := none
                       agent_id := some (Value.vStr aid)
                       details := [("last_heartbeat", hb),
                                   ("status", getFieldD st "status" Value.vNull),
                                   ("time_since_heartbeat", Value.vInt (now - t))]
                       severity := "critical"
                       detected_at := now }])
                else agentHealthLoop db now rest acc
          else agentHealthLoop db now rest acc

/-- Source `StateSyncService.check_agent_health`: heartbeat staleness of the
fixed agent list `['manager', 'developer']`. -/
def check_agent_health (db : Db) (now : Int) : List SyncInc :=
  agentHealthLoop db now ["manager", "developer"] []

/-- Source `StateSyncService._resolve_orphaned_message`: materialize a task
from the queued message and insert it via `create_task`; succeeds when the
insert returns a truthy task id. -/
def resolve_orphaned_message (db : Db) (qs : Queues) (inc : SyncInc)
    (now : Int) : Bool × Db × Queues :=
  match getField inc.details "message" with
  | none => (false, db, qs)
  | some msg =>
      let taskObj := (msg.objLookup "task").getD Value.vObjNil
      let task_data : Doc :=
        [("task_id", (msg.objLookup "task_id").getD Value.vNull),
         ("title", (taskObj.objLookup "title").getD (Value.vStr "Recovered Task")),
         ("description", (taskObj.objLookup "description").getD (Value.vStr "")),
         ("status", Value.vStr "assigned"),
         ("assigned_to", (msg.objLookup "to_agent").getD Value.vNull),
         ("assigned_by", (msg.objLookup "from_agent").getD Value.vNull),
         ("priority", (msg.objLookup "priority").getD (Value.vStr "normal")),
         ("recovered", Value.vBool true),
         ("recovery_reason", Value.vStr "orphaned_message")]
      let r := create_task db task_data now
      match r.1 with
      | some v => (v.truthy, r.2, qs)
      | none => (false, r.2, qs)

/-- Assignment-message payload built by the two re-queueing resolvers from a
task document's current fields. -/
def taskPayload (task : Doc) : Value :=
  Value.vObj
    [("title", getFieldD task "title" Value.vNull),
     ("description", getFieldD task "description" Value.vNull),
     ("requirements", getFieldD task "requirements" Value.vListNil)]

/-- Target queue choice used by both re-queueing resolvers:
`DEVELOPER_QUEUE` iff the task's `assigned_to` equals `'developer'`. -/
def targetQueue (task : Doc) : String :=
  if getFieldD task "assigned_to" Value.vNull = Value.vStr "developer" then
    DEVELOPER_QUEUE
  else MANAGER_QUEUE

/-- Source `StateSyncService._resolve_missing_queue_message`: re-publish an
assignment message built from the task document stored in the issue. -/
def resolve_missing_queue_message (db : Db) (qs : Queues) (inc : SyncInc)
    (now : Int) : Bool × Db × Queues :=
  match getField inc.details "task" with
  | none => (false, db, qs)
  | some taskVal =>
      match taskVal.objLookup "task_id" with
      | none => (false, db, qs)
      | some tid =>
          let msg : Doc :=
            [("message_type", Value.vStr "task_assignment"),
             ("task_id", tid),
             ("from_agent", (taskVal.objLookup "assigned_by").getD (Value.vStr "manager")),
             ("to_agent", (taskVal.objLookup "assigned_to").getD (Value.vStr "developer")),
             ("timestamp", Value.vDtStr now),
             ("priority", (taskVal.objLookup "priority").getD (Value.vStr "normal")),
             ("task", Value.vObj
               [("title", (taskVal.objLookup "title").getD Value.vNull),
                ("description", (taskVal.objLookup "description").getD Value.vNull),
                ("requirements", (taskVal.objLookup "requirements").getD Value.vListNil)]),
             ("recovered", Value.vBool true),
             ("recovery_reason", Value.vStr "missing_queue_message")]
          let qname :=
            if (taskVal.objLookup "assigned_to").getD Value.vNull
                = Value.vStr "developer" then DEVELOPER_QUEUE else MANAGER_QUEUE
          let p := publish_message qs qname msg
          (p.1, db, p.2)

/-- Source `StateSyncService._resolve_stalled_task`: reset the task to
`assigned` (replacing its metadata with the stall bookkeeping), then
re-publish its assignment at high priority. -/
def resolve_stalled_task (db : Db) (qs : Queues) (inc : SyncInc)
    (now : Int) : Bool × Db × Queues :=
  let tid := ((inc.task_id.getD Value.vNull).asStr).getD ""
  let u := update_task_state db tid "assigned"
    [("stalled_at", Value.vDtStr now),
     ("reassigned", Value.vBool true),
     ("previous_duration", getFieldD inc.details "duration" Value.vNull)] now
  if u.1 then
    match get_task u.2 tid with
    | none => (false, u.2, qs)
    | some task =>
        let msg : Doc :=
          [("message_type", Value.vStr "task_assignment"),
           ("task_id", Value.vStr tid),
           ("from_agent", Value.vStr "manager"),
           ("to_agent", getFieldD task "assigned_to" (Value.vStr "developer")),
           ("timestamp", Value.vDtStr now),
           ("priority", Value.vStr "high"),
           ("task", taskPayload task),
           ("recovered", Value.vBool true),
           ("recovery_reason", Value.vStr "stalled_task")]
        let p := publish_message qs (targetQueue task) msg
        (p.1, u.2, p.2)
  else (false, u.2, qs)

/-- Task-reassignment loop of `_resolve_unresponsive_agent`: each active
task of the agent is reset to `created` via `update_task_state` with the
reassignment metadata; a task without `task_id` raises, making the resolver
return `False` after the updates already applied. -/
def reassignLoop (db : Db) (tasks : List Doc) (prevAssignee : Value)
    (now : Int) : Bool × Db :=
  match tasks with
  | [] => (true, db)
  | t :: rest =>
      match (getField t "task_id").bind Value.asStr with
      | none => (false, db)
      | some tid =>
          let u := update_task_state db tid "created"
            [("previous_assignee", prevAssignee),
             ("reassignment_reason", Value.vStr "agent_unresponsive")] now
          reassignLoop u.2 rest prevAssignee now

/-- Source `StateSyncService._resolve_unresponsive_agent`: set the agent's
status to `error` (recording the stale heartbeat), then reset every task of
that agent with status `assigned` or `in_progress` to `created`. -/
def resolve_unresponsive_agent (db : Db) (qs : Queues) (inc : SyncInc)
    (now : Int) : Bool × Db × Queues :=
  let aidVal := inc.agent_id.getD Value.vNull
  let aid := (aidVal.asStr).getD ""
  let u := update_agent_state db aid (some "error")
    [("error", Value.vStr "unresponsive"),
     ("last_known_heartbeat", getFieldD inc.details "last_heartbeat" Value.vNull),
     ("marked_unresponsive_at", Value.vDtStr now)] now
  let active := get_agent_tasks u.2 aid ["assigned", "in_progress"]
  let r := reassignLoop u.2 active aidVal now
  (r.1, r.2, qs)

/-- Source `StateSyncService.resolve_inconsistency`: dispatch to the
per-pattern resolver; patterns without a resolver report `False`. -/
def resolve_inconsistency (db : Db) (qs : Queues) (inc : SyncInc)
    (now : Int) : Bool × Db × Queues :=
  match inc.type with
  | .taskInQueueNotDb => resolve_orphaned_message db qs inc now
  | .taskInDbNotQueue => resolve_missing_queue_message db qs inc now
  | .stalledTask => resolve_stalled_task db qs inc now
  | .agentUnresponsive => resolve_unresponsive_agent db qs inc now
  | _ => (false, db, qs)

/-- Resolution loop of `perform_sync`, counting successes. -/
def resolveAll (db : Db) (qs : Queues) (incs : List SyncInc) (now : Int) :
    Nat × Db × Queues :=
  match incs with
  | [] => (0, db, qs)
  | inc :: rest =>
      let r := resolve_inconsistency db qs inc now
      let rec' := resolveAll r.2.1 r.2.2 rest now
      ((if r.1 then 1 else 0) + rec'.1, rec'.2)

/-- Outcome counters of one sync pass. -/
structure SyncResults where
  found : Nat
  resolved : Nat
deriving DecidableEq, Repr

/-- Source `StateSyncService._update_sync_status`: `replace_one` with
`upsert=True` of the single `state_sync` status document. -/
def update_sync_status (db : Db) (res : SyncResults) (now : Int) : Db :=
  let statusDoc : Doc :=
    [("_id", Value.vStr "state_sync"),
     ("last_sync", Value.vDt now),
     ("inconsistencies_found", Value.vInt res.found),
     ("inconsistencies_resolved", Value.vInt res.resolved),
     ("errors", Value.vListNil),
     ("status", Value.vStr "healthy")]
  { db with sync_status :=
      (if db.sync_status.any
          (fun d => getField d "_id" = some (Value.vStr "state_sync")) then
        (updateOne db.sync_status
          (fun d => getField d "_id" = some (Value.vStr "state_sync"))
          (fun _ => statusDoc)).2
      else db.sync_status ++ [statusDoc]) }

/-- Source `StateSyncService.perform_sync`: detect the three issue families,
resolve each detected inconsistency, and persist the outcome counters. -/
def perform_sync (db : Db) (qs : Queues) (now : Int) :
    SyncResults × Db × Queues :=
  let q := check_queue_database_consistency db qs now
  let s := check_stalled_tasks db now
  let a := check_agent_health db now
  let all := q ++ s ++ a
  let r := resolveAll db qs all now
  let results : SyncResults := { found := all.length, resolved := r.1 }
  (results, update_sync_status r.2.1 results now, r.2.2)

/-! ## Recovery Manager (`tools/recovery_manager.py`)

The externally visible effects of recovery execution — restart attempts,
agent stop signals, alerts, component disablement — are recorded as an
event trace. -/

/-- Observable recovery effects. -/
inductive RecEvent where
  | restartAttempt (component : String)
  | stopAgent (agent : String)
  | alert (priority message : String)
  | disable (component : String)
deriving DecidableEq, Repr

/-- Source `RecoveryAction` (the `failure_type` and `params` fields play no
role in execution and are omitted); `max_retries` defaults to 3. -/
structure RecoveryAction where
  component : String
  action : String
  priority : Nat
  retry_count : Nat := 0
  max_retries : Nat := 3
deriving DecidableEq, Repr

/-- The components table of `RecoveryManager.__init__`, reduced to its
criticality flags. -/
def componentsCritical : List (String × Bool) :=
  [("mongodb", true), ("rabbitmq", true),
   ("manager_agent", false), ("developer_agent", false)]

/-- Source `RecoveryManager._enter_safe_mode`: stop the two agent processes
and raise a critical alert. -/
def enter_safe_mode : List RecEvent :=
  [.stopAgent "manager_agent", .stopAgent "developer_agent",
   .alert "critical" "CRITICAL: System in safe mode"]

/-- Source `RecoveryManager._handle_permanent_failure`: safe mode for the
critical infrastructure components, disablement otherwise. -/
def handle_permanent_failure (a : RecoveryAction) : List RecEvent :=
  if ["mongodb", "rabbitmq"].contains a.component then enter_safe_mode
  else [.disable a.component]

/-- Source `RecoveryManager.execute_recovery_action`, given the outcome of
the component's restart/reconnect function: on failure the retry counter is
incremented and the action re-queued while under `max_retries`; once
exhausted, `_handle_permanent_failure` runs. -/
def execute_recovery_action (a : RecoveryAction) (succeeded : Bool) :
    Bool × List RecEvent × Option RecoveryAction :=
  if succeeded then (true, [.restartAttempt a.component], none)
  else
    let a' := { a with retry_count := a.retry_count + 1 }
    if a'.retry_count < a.max_retries then
      (false, [.restartAttempt a.component], some a')
    else
      (false, .restartAttempt a.component :: handle_permanent_failure a', none)

/-- The recovery worker repeatedly re-executing one action whose restart
function always fails, until the action leaves the queue; returns how many
executions ran and the accumulated event trace. -/
def drainFailingAction : RecoveryAction → Nat → Nat × List RecEvent
  | _, 0 => (0, [])
  | a, fuel + 1 =>
      match execute_recovery_action a false with
      | (_, evs, some a') =>
          let r := drainFailingAction a' fuel
          (r.1 + 1, evs ++ r.2)
      | (_, evs, none) => (1, evs)

/-! ## Consistency Checker (`tools/consistency_checker.py`) -/

/-- Issue categories of `consistency_checker.InconsistencyType`. -/
inductive CCIncType where
  | orphanedTask
  | invalidStatusTransition
  | missingReference
  | duplicateEntry
  | schemaViolation
  | temporalInconsistency
  | referentialIntegrity
deriving DecidableEq, Repr

/-- The enum's `.value` strings, used in repair audit entries. -/
def CCIncType.value : CCIncType → String
  | .orphanedTask => "orphaned_task"
  | .invalidStatusTransition => "invalid_status_transition"
  | .missingReference => "missing_reference"
  | .duplicateEntry => "duplicate_entry"
  | .schemaViolation => "schema_violation"
  | .temporalInconsistency => "temporal_inconsistency"
  | .referentialIntegrity => "referential_integrity"

/-- Source `consistency_checker.ConsistencyIssue` (a Python `None`
document id is `vNull`). -/
structure Issue where
  type : CCIncType
  collection : String
  document_id : Value
  description : String
  severity : String
  data : Doc
  can_auto_repair : Bool
  repair_suggestion : String
deriving DecidableEq, Repr

/-- Declared field types of the schema table (`str`, `datetime`, `list`). -/
inductive FieldType where
  | tStr
  | tDt
  | tList
deriving DecidableEq, Repr

/-- Source `isinstance(doc[field], expected_type)`. -/
def isinstanceOf (v : Value) : FieldType → Bool
  | .tStr => v.isStr
  | .tDt => match v with | .vDt _ => true | _ => false
  | .tList => match v with | .vListNil => true | .vListCons _ _ => true | _ => false

/-- Schema entry of `ConsistencyChecker._define_schemas` (the
`optional_fields` list is never consulted by the validator). -/
structure Schema where
  required_fields : List String
  field_types : List (String × FieldType)
  valid_values : List (String × List String)
deriving Repr

/-- Source `ConsistencyChecker._define_schemas`. -/
def schemas : List (String × Schema) :=
  [("tasks",
    { required_fields := ["task_id", "status", "created_at"]
      field_types := [("task_id", .tStr), ("status", .tStr),
                      ("created_at", .tDt), ("priority", .tStr)]
      valid_values := [("status", ["created", "assigned", "in_progress",
                                   "completed", "failed", "cancelled"]),
                       ("priority", ["low", "normal", "high", "critical"])] }),
   ("agent_states",
    { required_fields := ["agent_id", "status"]
      field_types := [("agent_id", .tStr), ("status", .tStr),
                      ("capabilities", .tList)]
      valid_values := [("status", ["active", "ready", "working", "error",
                                   "stopped", "listening"]),
                       ("agent_id", ["manager", "developer"])] }),
   ("activity_logs",
    { required_fields := ["timestamp", "agent_id", "activity_type"]
      field_types := [("timestamp", .tDt), ("agent_id", .tStr),
                      ("activity_type", .tStr)]
      valid_values := [] })]

/-- Collection access by schema name. -/
def getCollection (db : Db) : String → List Doc
  | "tasks" => db.tasks
  | "agent_states" => db.agent_states
  | "activity_logs" => db.activity_logs
  | _ => []

/-- Membership test `doc[field] not in valid_values` against a closed set of
strings: only an equal string is a member. -/
def valueIn (v : Value) (vals : List String) : Bool :=
  match v with
  | .vStr s => vals.contains s
  | _ => false

/-- Schema issues of one document, in the order the validator appends them:
missing required fields, then type mismatches, then out-of-set values. -/
def docSchemaIssues (cname : String) (sch : Schema) (d : Doc) : List Issue :=
  (sch.required_fields.filter (fun f => (getField d f).isNone)).map (fun f =>
    { type := .schemaViolation, collection := cname
      document_id := getFieldD d "_id" Value.vNull
      description := "Missing required field: " ++ f
      severity := "high"
      data := [("document", Value.vObj d), ("missing_field", Value.vStr f)]
      can_auto_repair := false
      repair_suggestion := "Add missing field " ++ f ++ " with appropriate value" }) ++
  (sch.field_types.filter (fun ft =>
      match getField d ft.1 with
      | some v => !isinstanceOf v ft.2
      | none => false)).map (fun ft =>
    { type := .schemaViolation, collection := cname
      document_id := getFieldD d "_id" Value.vNull
      description := "Invalid type for field " ++ ft.1
      severity := "medium"
      data := [("field", Value.vStr ft.1)]
      can_auto_repair := false
      repair_suggestion := "Convert " ++ ft.1 ++ " to the declared type" }) ++
  (sch.valid_values.filter (fun vv =>
      match getField d vv.1 with
      | some v => !valueIn v vv.2
      | none => false)).map (fun vv =>
    { type := .schemaViolation, collection := cname
      document_id := getFieldD d "_id" Value.vNull
      description := "Invalid value for field " ++ vv.1
      severity := "medium"
      data := [("field", Value.vStr vv.1),
               ("value", getFieldD d vv.1 Value.vNull),
               ("valid_values", Value.vList (vv.2.map Value.vStr))]
      can_auto_repair := true
      repair_suggestion := "Set " ++ vv.1 ++ " to a value of the closed set" })

/-- Source `ConsistencyChecker._validate_schemas`: for every schema
collection — tasks, agent states and activity logs alike — only the sample
`find().limit(1000)` is examined. -/
def validate_schemas (db : Db) : List Issue :=
  schemas.flatMap (fun cs =>
    ((getCollection db cs.1).take 1000).flatMap (docSchemaIssues cs.1 cs.2))
/-- Result of one rule check: the issues appended to `self.issues` before
the check returned or raised, and the raised exception if any.  The checks
mutate the shared issue list as they walk, so a mid-walk exception keeps the
issues already appended. -/
abbrev CheckRes := List Issue × Option String

/-- Dictionary access `doc[k]`: raises `KeyError` when the key is absent. -/
def reqField (d : Doc) (k : String) : Except String Value :=
  match getField d k with
  | some v => .ok v
  | none => .error "KeyError"

/-- Prepend the issues contributed by the current loop item. -/
def consIssues (is : List Issue) (r : CheckRes) : CheckRes :=
  (is ++ r.1, r.2)

/-- Loop of `_check_task_agent_references` over tasks having an
`assigned_to` field. -/
def taskAgentRefsLoop (agents : List Doc) : List Doc → CheckRes
  | [] => ([], none)
  | t :: rest =>
      let aid := getFieldD t "assigned_to" Value.vNull
      if (findOne agents (fun a => getField a "agent_id" = some aid)).isSome then
        taskAgentRefsLoop agents rest
      else
        match reqField t "_id", reqField t "task_id" with
        | .ok did, .ok tid =>
            consIssues
              [{ type := .missingReference, collection := "tasks"
                 document_id := did
                 description := "Task assigned to non-existent agent"
                 severity := "high"
                 data := [("task_id", tid), ("agent_id", aid)]
                 can_auto_repair := true
                 repair_suggestion :=
                   "Clear assigned_to field and reset status to 'created'" }]
              (taskAgentRefsLoop agents rest)
        | _, _ => ([], some "KeyError")

/-- Source `ConsistencyChecker._check_task_agent_references`. -/
def check_task_agent_references (db : Db) : CheckRes :=
  taskAgentRefsLoop db.agent_states
    (db.tasks.filter (fun t => (getField t "assigned_to").isSome))

/-- Source `ConsistencyChecker.valid_transitions['tasks']`; unknown statuses
fall back to the dict-`get` default `[]`. -/
def valid_transitions : String → List String
  | "created" => ["assigned", "cancelled"]
  | "assigned" => ["in_progress", "created", "cancelled"]
  | "in_progress" => ["completed", "failed", "assigned"]
  | "completed" => []
  | "failed" => ["created", "assigned"]
  | "cancelled" => []
  | _ => []

/-- Access `entry['status']` on a status-history entry; a non-object entry
or a missing key raises. -/
def entryStatus (entry : Value) : Except String Value :=
  match entry with
  | Value.vObjCons k v rest =>
      match (Value.vObjCons k v rest).objLookup "status" with
      | some s => .ok s
      | none => .error "KeyError"
  | _ => .error "TypeError"

/-- Plain-string rendering used in transition descriptions. -/
def strOf (v : Value) : String :=
  (v.asStr).getD ""

/-- Pairwise walk of a status-history trail (`for i in range(1, len(history))`):
a transition is flagged unless the successor is a string in the
predecessor's valid-transition list. -/
def statusPairsWalk (t : Doc) : List Value → CheckRes
  | [] => ([], none)
  | [_] => ([], none)
  | e₁ :: e₂ :: rest =>
      match entryStatus e₁, entryStatus e₂ with
      | .ok p, .ok c =>
          let valid := match p with
            | Value.vStr s => valid_transitions s
            | _ => []
          let fine := match c with
            | Value.vStr s => valid.contains s
            | _ => false
          if fine then
            statusPairsWalk t (e₂ :: rest)
          else
            match reqField t "_id", reqField t "task_id" with
            | .ok did, .ok tid =>
                consIssues
                  [{ type := .invalidStatusTransition, collection := "tasks"
                     document_id := did
                     description := "Invalid status transition: " ++ strOf p
                       ++ " -> " ++ strOf c
                     severity := "medium"
                     data := [("task_id", tid),
                              ("transition",
                               Value.vStr (strOf p ++ " -> " ++ strOf c))]
                     can_auto_repair := false
                     repair_suggestion :=
                       "Review task history and correct if needed" }]
                  (statusPairsWalk t (e₂ :: rest))
            | _, _ => ([], some "KeyError")
      | _, _ => ([], some "TypeError")

/-- Per-task loop of `_check_task_status_consistency`. -/
def statusConsistencyLoop : List Doc → CheckRes
  | [] => ([], none)
  | t :: rest =>
      match (getFieldD t "metadata" Value.vObjNil).objLookup "status_history" with
      | none => statusConsistencyLoop rest
      | some hist =>
          let r := statusPairsWalk t hist.elems
          match r.2 with
          | some e => (r.1, some e)
          | none => consIssues r.1 (statusConsistencyLoop rest)

/-- Source `ConsistencyChecker._check_task_status_consistency`: walk any
`status_history` trail embedded in a task's metadata. -/
def check_task_status_consistency (db : Db) : CheckRes :=
  statusConsistencyLoop db.tasks

/-- Extract the timestamp the temporal check compares `completed_at`
against: a `datetime` directly, a string via `fromisoformat` (raising on a
non-ISO string), anything else raising on comparison. -/
def createdTimestamp (v : Value) : Except String Int :=
  match v with
  | Value.vDt ts => .ok ts
  | Value.vDtStr ts => .ok ts
  | _ => .error "TypeError"

/-- Per-task loop of `_check_task_temporal_consistency`. -/
def temporalLoop : List Doc → CheckRes
  | [] => ([], none)
  | t :: rest =>
      let created := getFieldD t "created_at" Value.vNull
      match (getFieldD t "metadata" Value.vObjNil).objLookup "completed_at" with
      | none => temporalLoop rest
      | some cv =>
          if created.truthy then
            match cv.fromIso with
            | none => ([], some "ValueError")
            | some completed =>
                match createdTimestamp created with
                | .error e => ([], some e)
                | .ok createdTs =>
                    if completed < createdTs then
                      match reqField t "_id", reqField t "task_id" with
                      | .ok did, .ok tid =>
                          consIssues
                            [{ type := .temporalInconsistency
                               collection := "tasks"
                               document_id := did
                               description :=
                                 "Task completed before it was created"
                               severity := "high"
                               data := [("task_id", tid),
                                        ("created_at", Value.vDtStr createdTs),
                                        ("completed_at", Value.vDtStr completed)]
                               can_auto_repair := true
                               repair_suggestion :=
                                 "Adjust timestamps to maintain logical order" }]
                            (temporalLoop rest)
                      | _, _ => ([], some "KeyError")
                    else temporalLoop rest
          else temporalLoop rest

/-- Source `ConsistencyChecker._check_task_temporal_consistency`: flag tasks
whose metadata `completed_at` precedes `created_at`. -/
def check_task_temporal_consistency (db : Db) : CheckRes :=
  temporalLoop db.tasks

/-- Loop of `_check_agent_task_references` over agents with a non-null
`current_task_id`. -/
def agentTaskRefsLoop (tasks : List Doc) : List Doc → CheckRes
  | [] => ([], none)
  | a :: rest =>
      let tidv := getFieldD a "current_task_id" Value.vNull
      match findOne tasks (fun t => getField t "task_id" = some tidv) with
      | none =>
          match reqField a "_id", reqField a "agent_id" with
          | .ok did, .ok aid =>
              consIssues
                [{ type := .missingReference, collection := "agent_states"
                   document_id := did
                   description := "Agent references non-existent task"
                   severity := "high"
                   data := [("agent_id", aid), ("task_id", tidv)]
                   can_auto_repair := true
                   repair_suggestion :=
                     "Clear current_task_id and set status to 'ready'" }]
                (agentTaskRefsLoop tasks rest)
          | _, _ => ([], some "KeyError")
      | some task =>
          match reqField a "agent_id" with
          | .error e => ([], some e)
          | .ok aid =>
              if getFieldD task "assigned_to" Value.vNull ≠ aid then
                match reqField a "_id" with
                | .error e => ([], some e)
                | .ok did =>
                    consIssues
                      [{ type := .referentialIntegrity
                         collection := "agent_states"
                         document_id := did
                         description := "Agent has task not assigned to them"
                         severity := "high"
                         data := [("agent_id", aid), ("task_id", tidv),
                                  ("task_assigned_to",
                                   getFieldD task "assigned_to" Value.vNull)]
                         can_auto_repair := true
                         repair_suggestion := "Clear incorrect task reference" }]
                      (agentTaskRefsLoop tasks rest)
              else agentTaskRefsLoop tasks rest

/-- Source `ConsistencyChecker._check_agent_task_references`. -/
def check_agent_task_references (db : Db) : CheckRes :=
  agentTaskRefsLoop db.tasks
    (db.agent_states.filter (fun a =>
      match getField a "current_task_id" with
      | some v => v ≠ Value.vNull
      | none => false))

/-- Source `ConsistencyChecker._check_agent_uniqueness`: the `$group` /
`$match count > 1` aggregation, grouping agent states by their `agent_id`
value (absent fields group under null). -/
def check_agent_uniqueness (db : Db) : CheckRes :=
  let key := fun (d : Doc) => getFieldD d "agent_id" Value.vNull
  let keys := (db.agent_states.map key).dedup
  ((keys.filter (fun k =>
      1 < (db.agent_states.filter (fun d => key d = k)).length)).map (fun k =>
    { type := .duplicateEntry, collection := "agent_states"
      document_id := Value.vList
        ((db.agent_states.filter (fun d => key d = k)).map
          (fun d => getFieldD d "_id" Value.vNull))
      description := "Duplicate agent_id"
      severity := "critical"
      data := [("agent_id", k),
               ("count", Value.vInt
                 ((db.agent_states.filter (fun d => key d = k)).length))]
      can_auto_repair := false
      repair_suggestion :=
        "Manual intervention required to resolve duplicate agents" }), none)

/-- Collect the known agent ids (`agent['agent_id']` raising when the
projected field is absent). -/
def knownAgentIds : List Doc → Except String (List Value)
  | [] => .ok []
  | a :: rest => do
      let aid ← reqField a "agent_id"
      let tl ← knownAgentIds rest
      .ok (aid :: tl)

/-- Loop of `_check_activity_agent_references` over the sampled log
entries. -/
def activityRefsLoop (ids : List Value) : List Doc → CheckRes
  | [] => ([], none)
  | act :: rest =>
      match reqField act "agent_id" with
      | .error e => ([], some e)
      | .ok aid =>
          if !ids.contains aid && aid ≠ Value.vStr "system" then
            match reqField act "_id" with
            | .error e => ([], some e)
            | .ok did =>
                consIssues
                  [{ type := .missingReference, collection := "activity_logs"
                     document_id := did
                     description := "Activity references unknown agent"
                     severity := "low"
                     data := [("agent_id", aid)]
                     can_auto_repair := false
                     repair_suggestion := "Historical data - no repair needed" }]
                  (activityRefsLoop ids rest)
          else activityRefsLoop ids rest

/-- Source `ConsistencyChecker._check_activity_agent_references`: sampled at
`find().limit(1000)`. -/
def check_activity_agent_references (db : Db) : CheckRes :=
  match knownAgentIds db.agent_states with
  | .error e => ([], some e)
  | .ok ids => activityRefsLoop ids (db.activity_logs.take 1000)

/-- Loop of `_check_bidirectional_references` over assigned/in-progress
tasks carrying `assigned_to`. -/
def bidirectionalLoop (agents : List Doc) : List Doc → CheckRes
  | [] => ([], none)
  | t :: rest =>
      let asg := getFieldD t "assigned_to" Value.vNull
      match findOne agents (fun a => getField a "agent_id" = some asg) with
      | none => bidirectionalLoop agents rest
      | some agent =>
          match reqField t "task_id" with
          | .error e => ([], some e)
          | .ok tid =>
              if getFieldD agent "current_task_id" Value.vNull ≠ tid then
                match reqField t "_id", reqField agent "_id" with
                | .ok tdid, .ok adid =>
                    consIssues
                      [{ type := .referentialIntegrity, collection := "*"
                         document_id :=
                           Value.vObj [("task", tdid), ("agent", adid)]
                         description := "Bidirectional reference mismatch"
                         severity := "high"
                         data := [("task_id", tid), ("task_assigned_to", asg),
                                  ("agent_current_task",
                                   getFieldD agent "current_task_id" Value.vNull)]
                         can_auto_repair := true
                         repair_suggestion :=
                           "Synchronize task and agent references" }]
                      (bidirectionalLoop agents rest)
                | _, _ => ([], some "KeyError")
              else bidirectionalLoop agents rest

/-- Source `ConsistencyChecker._check_bidirectional_references`. -/
def check_bidirectional_references (db : Db) : CheckRes :=
  bidirectionalLoop db.agent_states
    (db.tasks.filter (fun t =>
      (match getField t "status" with
       | some (Value.vStr s) => ["assigned", "in_progress"].contains s
       | _ => false) && (getField t "assigned_to").isSome))

/-- Source `update_one({'_id': docId}, ...)` inside a repair
transaction. -/
def updateById (docs : List Doc) (docId : Value) (f : Doc → Doc) : List Doc :=
  (updateOne docs (fun d => getField d "_id" = some docId) f).2

/-- Source `ConsistencyChecker._repair_task_agent_references`: inside one
coordinator transaction, reset the task to `created`, unset `assigned_to`,
and append the repair audit entry; accessing the missing `task_id` datum
raises before anything is enqueued, aborting the transaction. -/
def repair_task_agent_references (db : Db) (issue : Issue) (now : Int) :
    Bool × Db :=
  match getField issue.data "task_id" with
  | none => (false, db)
  | some tid =>
      (true,
       { db with
         tasks := updateById db.tasks issue.document_id (fun d =>
           unsetTop (setTop d "status" (Value.vStr "created")) "assigned_to")
         activity_logs := db.activity_logs ++
           [[("timestamp", Value.vDt now),
             ("agent_id", Value.vStr "system"),
             ("activity_type", Value.vStr "consistency_repair"),
             ("details", Value.vObj
               [("issue_type", Value.vStr issue.type.value),
                ("task_id", tid),
                ("repair", Value.vStr "Cleared invalid agent assignment")])]] })

/-- Source `ConsistencyChecker._repair_task_temporal_consistency`: set the
task's `metadata.completed_at` to the recorded `created_at` plus one hour. -/
def repair_task_temporal_consistency (db : Db) (issue : Issue) (_now : Int) :
    Bool × Db :=
  match getField issue.data "created_at" with
  | none => (false, db)
  | some cv =>
      match cv.fromIso with
      | none => (false, db)
      | some created =>
          (true,
           { db with tasks := updateById db.tasks issue.document_id (fun d =>
               setNested d "metadata" "completed_at"
                 (Value.vDtStr (created + 3600))) })

/-- Source `ConsistencyChecker._repair_agent_task_references`: reset the
agent to `ready` and unset its `current_task_id`. -/
def repair_agent_task_references (db : Db) (issue : Issue) (_now : Int) :
    Bool × Db :=
  (true,
   { db with agent_states := (updateById db.agent_states issue.document_id
       (fun d =>
         unsetTop (setTop d "status" (Value.vStr "ready")) "current_task_id")) })

/-- Source `ConsistencyChecker._repair_bidirectional_references`: trust the
task assignment and point the agent's `current_task_id` at it. -/
def repair_bidirectional_references (db : Db) (issue : Issue) (_now : Int) :
    Bool × Db :=
  match issue.document_id.objLookup "agent", getField issue.data "task_id" with
  | some agentId, some tidv =>
      (true,
       { db with agent_states := (updateById db.agent_states agentId
           (fun d => setTop d "current_task_id" tidv)) })
  | _, _ => (false, db)

/-- A validation rule record (`consistency_checker.ValidationRule`; the
per-rule `severity`/`description` fields are not consulted by execution). -/
structure CCRule where
  name : String
  collection : String
  check : Db → CheckRes
  repair : Option (Db → Issue → Int → Bool × Db)

/-- Source `ConsistencyChecker._define_validation_rules`, in declaration
order. -/
def validation_rules : List CCRule :=
  [{ name := "task_assigned_agent_exists", collection := "tasks"
     check := check_task_agent_references
     repair := some repair_task_agent_references },
   { name := "task_status_consistency", collection := "tasks"
     check := check_task_status_consistency
     repair := none },
   { name := "task_temporal_consistency", collection := "tasks"
     check := check_task_temporal_consistency
     repair := some repair_task_temporal_consistency },
   { name := "agent_current_task_exists", collection := "agent_states"
     check := check_agent_task_references
     repair := some repair_agent_task_references },
   { name := "agent_unique_ids", collection := "agent_states"
     check := check_agent_uniqueness
     repair := none },
   { name := "activity_agent_exists", collection := "activity_logs"
     check := check_activity_agent_references
     repair := none },
   { name := "bidirectional_references", collection := "*"
     check := check_bidirectional_references
     repair := some repair_bidirectional_references }]

/-- Critical issue recorded by `run_full_check` when a rule check raises. -/
def ruleFailureIssue (rule : CCRule) (e : String) : Issue :=
  { type := .schemaViolation
    collection := rule.collection
    document_id := Value.vNull
    description := "Rule check failed: " ++ e
    severity := "critical"
    data := [("rule", Value.vStr rule.name), ("error", Value.vStr e)]
    can_auto_repair := false
    repair_suggestion := "Review rule implementation" }

/-- The rule-running loop of `run_full_check`: one rule's failure surfaces
as a critical issue rather than aborting the others. -/
def runRules (db : Db) : List Issue :=
  validation_rules.flatMap (fun r =>
    let c := r.check db
    c.1 ++ (match c.2 with
            | some e => [ruleFailureIssue r e]
            | none => []))

/-- Repair-function selection in `_perform_repairs`: the first rule carrying
a repair function whose collection is the issue's collection or the `*`
wildcard — the rule/issue types are not compared (the source comments that
the matching is simplified). -/
def findRepairFunc (issue : Issue) : Option (Db → Issue → Int → Bool × Db) :=
  (validation_rules.find? (fun r =>
    r.repair.isSome && (r.collection = issue.collection || r.collection = "*"))
  ).bind (fun r => r.repair)

/-- Repair loop of `_perform_repairs` over the auto-repairable issues,
counting successful repairs. -/
def repairLoop (db : Db) (now : Int) : List Issue → Nat × Db
  | [] => (0, db)
  | i :: rest =>
      match findRepairFunc i with
      | none => repairLoop db now rest
      | some f =>
          let r := f db i now
          let rec' := repairLoop r.2 now rest
          ((if r.1 then 1 else 0) + rec'.1, rec'.2)

/-- Source `ConsistencyChecker._perform_repairs`. -/
def perform_repairs (db : Db) (issues : List Issue) (now : Int) : Nat × Db :=
  repairLoop db now (issues.filter (fun i => i.can_auto_repair))

/-- Source `ConsistencyChecker.run_full_check`: schema validation, then
every rule in order, then the repairs when requested.  Returns the issue
list, the repairs-performed count, and the resulting store (the persisted
report document itself is observational and not modelled). -/
def run_full_check (db : Db) (auto_repair : Bool) (now : Int) :
    List Issue × Nat × Db :=
  let issues := validate_schemas db ++ runRules db
  if auto_repair then
    let r := perform_repairs db issues now
    (issues, r.1, r.2)
  else (issues, 0, db)

/-! ## Concrete scenarios

Stores, queues and operation behaviours used to instantiate the
properties. -/

/-- Operation that appends a tag to a list-of-strings store and always
succeeds. -/
def appendOp (tag : String) : OpBehavior (List String) :=
  fun _ s => .ok (s ++ [tag])

/-- A two-operation transaction whose last operation raises a
non-retryable error on every attempt. -/
def failLastOps : List (OpBehavior (List String)) :=
  [appendOp "first", fun _ _ => .error .otherException]

/-- A transaction that reports an unknown commit outcome on the first
attempt and succeeds on the retry. -/
def unknownOnceOps : List (OpBehavior (List String)) :=
  [fun n s =>
    if n = 0 then .error (.opFailure ["UnknownTransactionCommitResult"])
    else .ok s]

/-- A transaction that raises a transient conflict on every attempt. -/
def alwaysTransientOps : List (OpBehavior (List String)) :=
  [fun _ _ => .error (.opFailure ["TransientTransactionError"])]

/-- A transaction that reports an unknown commit outcome on every
attempt. -/
def alwaysUnknownOps : List (OpBehavior (List String)) :=
  [fun _ _ => .error (.opFailure ["UnknownTransactionCommitResult"])]

/-- The empty store. -/
def emptyDb : Db :=
  { tasks := [], agent_states := [], activity_logs := [], sync_status := [] }

/-- The three monitored queues, all empty. -/
def emptyQueues : Queues :=
  [(MANAGER_QUEUE, []), (DEVELOPER_QUEUE, []), (WORK_REQUEST_QUEUE, [])]

/-- An agent state whose heartbeat is 400 seconds old at time 400. -/
def c3agent : Doc :=
  [("_id", Value.vStr "a1"), ("agent_id", Value.vStr "developer"),
   ("status", Value.vStr "working"), ("last_heartbeat", Value.vDtStr 0)]

/-- A task assigned to that agent. -/
def c3task : Doc :=
  [("_id", Value.vStr "t1"), ("task_id", Value.vStr "T1"),
   ("status", Value.vStr "assigned"), ("assigned_to", Value.vStr "developer"),
   ("created_at", Value.vDt 0)]

/-- Store with the stale-heartbeat agent and its assigned task. -/
def c3db : Db :=
  { tasks := [c3task], agent_states := [c3agent], activity_logs := [],
    sync_status := [] }

/-- The unresponsive-agent inconsistency `check_agent_health` detects on
`c3db` at time 400. -/
def c3inc : SyncInc :=
  { type := .agentUnresponsive
    task_id := none
    agent_id := some (Value.vStr "developer")
    details := [("last_heartbeat", Value.vDtStr 0),
                ("status", Value.vStr "working"),
                ("time_since_heartbeat", Value.vInt 400)]
    severity := "critical"
    detected_at := 400 }

/-- The metadata map `_resolve_unresponsive_agent` writes into each
reassigned task. -/
def reassignMeta (prevAssignee : Value) : List (String × Value) :=
  [("previous_assignee", prevAssignee),
   ("reassignment_reason", Value.vStr "agent_unresponsive")]

/-- An agent outside the monitored pair, with the same stale heartbeat. -/
def c3worker : Doc :=
  [("_id", Value.vStr "a2"), ("agent_id", Value.vStr "worker-1"),
   ("status", Value.vStr "working"), ("last_heartbeat", Value.vDtStr 0)]

/-- Store containing only the stale non-monitored agent. -/
def c3dbW : Db :=
  { tasks := [], agent_states := [c3worker], activity_logs := [],
    sync_status := [] }

/-- A task `in_progress` since time 0, stalled at time 4000 (threshold
3600). -/
def c7stask : Doc :=
  [("_id", Value.vStr "t7"), ("task_id", Value.vStr "T7"),
   ("status", Value.vStr "in_progress"),
   ("assigned_to", Value.vStr "developer"), ("created_at", Value.vDt 0),
   ("metadata", Value.vObj [("started_at", Value.vDtStr 0)])]

/-- Store containing only the stalled task. -/
def c7sdb : Db :=
  { tasks := [c7stask], agent_states := [], activity_logs := [],
    sync_status := [] }

/-- The stalled-task inconsistency detected for `c7stask` at time 4000. -/
def c7sinc : SyncInc :=
  { type := .stalledTask
    task_id := some (Value.vStr "T7")
    agent_id := some (Value.vStr "developer")
    details := [("started_at", Value.vDtStr 0),
                ("duration", Value.vInt 4000)]
    severity := "high"
    detected_at := 4000 }

/-- A `task_assignment` message for a task absent from the store. -/
def c4msg : Doc :=
  [("message_type", Value.vStr "task_assignment"),
   ("task_id", Value.vStr "T1"),
   ("from_agent", Value.vStr "manager"),
   ("to_agent", Value.vStr "developer"),
   ("timestamp", Value.vDtStr 0),
   ("task", Value.vObj
     [("title", Value.vStr "Recover me"), ("description", Value.vStr "d"),
      ("requirements", Value.vListNil)])]

/-- Queue state holding the orphaned assignment message. -/
def c4queues : Queues :=
  [(MANAGER_QUEUE, []), (DEVELOPER_QUEUE, [c4msg]), (WORK_REQUEST_QUEUE, [])]

/-- The orphaned-message inconsistency that detection would have to produce
for `c4msg` before `_resolve_orphaned_message` can run. -/
def c4inc : SyncInc :=
  { type := .taskInQueueNotDb
    task_id := some (Value.vStr "T1")
    agent_id := some (Value.vStr "developer")
    details := [("queue", Value.vStr DEVELOPER_QUEUE),
                ("message", Value.vObj c4msg)]
    severity := "high"
    detected_at := 0 }

/-- A task whose metadata `completed_at` (time 0) precedes its `created_at`
(time 1000). -/
def c5task : Doc :=
  [("_id", Value.vStr "t5"), ("task_id", Value.vStr "T5"),
   ("status", Value.vStr "completed"), ("created_at", Value.vDt 1000),
   ("metadata", Value.vObj [("completed_at", Value.vDtStr 0)])]

/-- Store containing only the temporally inconsistent task. -/
def c5db : Db :=
  { tasks := [c5task], agent_states := [], activity_logs := [],
    sync_status := [] }

/-- A status-history entry. -/
def histEntry (s : String) : Value :=
  Value.vObj [("status", Value.vStr s)]

/-- A task carrying a status-history trail in its metadata. -/
def mkHistTask (hist : List String) : Doc :=
  [("_id", Value.vStr "t6"), ("task_id", Value.vStr "T6"),
   ("metadata", Value.vObj
     [("status_history", Value.vList (hist.map histEntry))])]

/-- Store containing only the history-carrying task. -/
def histDb (hist : List String) : Db :=
  { tasks := [mkHistTask hist], agent_states := [], activity_logs := [],
    sync_status := [] }

/-- The issue `_check_task_status_consistency` emits for one invalid
adjacent pair of a trail, for a task with document id `did` and task id
`tid`. -/
def transIssueAt (did tid : Value) (p c : String) : Issue :=
  { type := .invalidStatusTransition, collection := "tasks"
    document_id := did
    description := "Invalid status transition: " ++ p ++ " -> " ++ c
    severity := "medium"
    data := [("task_id", tid), ("transition", Value.vStr (p ++ " -> " ++ c))]
    can_auto_repair := false
    repair_suggestion := "Review task history and correct if needed" }

/-- Membership of an edge in the valid-transition graph exactly as the
specification enumerates it. -/
def specTransitionGraph (p c : String) : Prop :=
  (p = "created" ∧ (c = "assigned" ∨ c = "cancelled")) ∨
  (p = "assigned" ∧ (c = "in_progress" ∨ c = "created" ∨ c = "cancelled")) ∨
  (p = "in_progress" ∧ (c = "completed" ∨ c = "failed" ∨ c = "assigned")) ∨
  (p = "failed" ∧ (c = "created" ∨ c = "assigned"))

/-- The missing-queue-message inconsistency detected for `c3task` (the
queue peek reports no messages, so the assigned task always counts as
missing). -/
def c7incB : SyncInc :=
  { type := .taskInDbNotQueue
    task_id := some (Value.vStr "T1")
    agent_id := some (Value.vStr "developer")
    details := [("task", Value.vObj c3task)]
    severity := "medium"
    detected_at := 400 }

/-- A schema-conforming task document. -/
def c9good : Doc :=
  [("_id", Value.vStr "g"), ("task_id", Value.vStr "G"),
   ("status", Value.vStr "created"), ("created_at", Value.vDt 0)]

/-- A task document missing every required field but `_id`. -/
def c9bad : Doc := [("_id", Value.vStr "b")]

/-- Store whose tasks collection holds 1000 conforming documents followed
by one violating document. -/
def c9db : Db :=
  { tasks := List.replicate 1000 c9good ++ [c9bad], agent_states := [],
    activity_logs := [], sync_status := [] }

/-- Truncation of every schema-checked collection to the 1000-document
sample. -/
def truncDb (db : Db) : Db :=
  { tasks := db.tasks.take 1000
    agent_states := db.agent_states.take 1000
    activity_logs := db.activity_logs.take 1000
    sync_status := db.sync_status }

/-- A task with pre-existing metadata (`started_at`) and an assignment. -/
def c10task : Doc :=
  [("_id", Value.vStr "t"), ("task_id", Value.vStr "T"),
   ("status", Value.vStr "in_progress"),
   ("assigned_to", Value.vStr "developer"), ("created_at", Value.vDt 0),
   ("metadata", Value.vObj [("started_at", Value.vDtStr 5)])]

/-- Store containing only that task. -/
def c10db : Db :=
  { tasks := [c10task], agent_states := [], activity_logs := [],
    sync_status := [] }

/-- A restart action for the critical queue component. -/
def c8action : RecoveryAction :=
  { component := "rabbitmq", action := "restart", priority := 1 }

/-- A restart action for a non-critical agent component. -/
def c8actionNc : RecoveryAction :=
  { component := "manager_agent", action := "restart", priority := 3 }

/-! ## Transaction-loop lemmas -/

/-- A successful attempt commits at once. -/
lemma execLoop_first_ok {σ : Type} (ops : List (OpBehavior σ)) (s s' : σ)
    (fuel attempt : Nat) (he : runOps ops attempt s = .ok s') :
    execLoop ops s attempt (fuel + 1) = ⟨true, s', [], 1⟩ := by
  simp [execLoop, he]

/-- One transient-conflict iteration: sleep `retry_delay × (attempt + 1)`
and continue with the incremented attempt counter. -/
lemma execLoop_step_transient {σ : Type} (ops : List (OpBehavior σ)) (s : σ)
    (fuel attempt : Nat) (e : MongoError)
    (he : runOps ops attempt s = .error e)
    (h1 : e.hasErrorLabel "TransientTransactionError" = true) :
    execLoop ops s attempt (fuel + 1) =
      ⟨(execLoop ops s (attempt + 1) fuel).committed,
       (execLoop ops s (attempt + 1) fuel).store,
       retryDelay * (attempt + 1) :: (execLoop ops s (attempt + 1) fuel).sleeps,
       (execLoop ops s (attempt + 1) fuel).attempts + 1⟩ := by
  simp [execLoop, he, h1]

/-- One unknown-commit-outcome iteration: continue at once with the
incremented attempt counter and no sleep. -/
lemma execLoop_step_unknown {σ : Type} (ops : List (OpBehavior σ)) (s : σ)
    (fuel attempt : Nat) (e : MongoError)
    (he : runOps ops attempt s = .error e)
    (h1 : e.hasErrorLabel "TransientTransactionError" = false)
    (h2 : e.hasErrorLabel "UnknownTransactionCommitResult" = true) :
    execLoop ops s attempt (fuel + 1) =
      ⟨(execLoop ops s (attempt + 1) fuel).committed,
       (execLoop ops s (attempt + 1) fuel).store,
       (execLoop ops s (attempt + 1) fuel).sleeps,
       (execLoop ops s (attempt + 1) fuel).attempts + 1⟩ := by
  simp [execLoop, he, h1, h2]

/-- An attempt raising an unlabelled error terminates the loop at once:
`False`, unchanged store, no sleeps, one executed attempt. -/
lemma execLoop_terminal_error {σ : Type} (ops : List (OpBehavior σ)) (s : σ)
    (fuel attempt : Nat) (e : MongoError)
    (he : runOps ops attempt s = .error e)
    (h1 : e.hasErrorLabel "TransientTransactionError" = false)
    (h2 : e.hasErrorLabel "UnknownTransactionCommitResult" = false) :
    execLoop ops s attempt (fuel + 1) = ⟨false, s, [], 1⟩ := by
  simp [execLoop, he, h1, h2]

/-- Every run of the retry loop either commits a store produced by one
complete attempt, or returns `False` with the caller-visible store exactly
as it started. -/
lemma execLoop_atomic {σ : Type} (ops : List (OpBehavior σ)) (s : σ) :
    ∀ fuel attempt,
      ((execLoop ops s attempt fuel).committed = true ∧
        ∃ n, attempt ≤ n ∧ n < attempt + fuel ∧
          runOps ops n s = .ok (execLoop ops s attempt fuel).store) ∨
      ((execLoop ops s attempt fuel).committed = false ∧
        (execLoop ops s attempt fuel).store = s) := by
  intro fuel
  induction fuel with
  | zero => intro attempt; right; simp [execLoop]
  | succ fuel ih =>
      intro attempt
      cases h : runOps ops attempt s with
      | ok s' =>
          rw [execLoop_first_ok ops s s' fuel attempt h]
          exact Or.inl ⟨rfl, attempt, le_refl _, by omega, h⟩
      | error e =>
          by_cases h1 : e.hasErrorLabel "TransientTransactionError" = true
          · rw [execLoop_step_transient ops s fuel attempt e h h1]
            rcases ih (attempt + 1) with ⟨hc, n, hn1, hn2, hr⟩ | ⟨hc, hs⟩
            · exact Or.inl ⟨hc, n, by omega, by omega, hr⟩
            · exact Or.inr ⟨hc, hs⟩
          · rw [Bool.not_eq_true] at h1
            by_cases h2 : e.hasErrorLabel "UnknownTransactionCommitResult" = true
            · rw [execLoop_step_unknown ops s fuel attempt e h h1 h2]
              rcases ih (attempt + 1) with ⟨hc, n, hn1, hn2, hr⟩ | ⟨hc, hs⟩
              · exact Or.inl ⟨hc, n, by omega, by omega, hr⟩
              · exact Or.inr ⟨hc, hs⟩
            · rw [Bool.not_eq_true] at h2
              rw [execLoop_terminal_error ops s fuel attempt e h h1 h2]
              exact Or.inr ⟨rfl, rfl⟩

/-- A loop whose every attempt raises the transient-conflict label returns
`False` over the unchanged store after sleeping `retry_delay × attempt` for
each of its `fuel` failed attempts. -/
lemma execLoop_all_transient {σ : Type} (ops : List (OpBehavior σ)) (s : σ) :
    ∀ fuel attempt,
      (∀ n, attempt ≤ n → n < attempt + fuel →
        ∃ e, runOps ops n s = .error e ∧
          e.hasErrorLabel "TransientTransactionError" = true) →
      execLoop ops s attempt fuel =
        ⟨false, s,
         (List.range fuel).map
           (fun i : Nat => retryDelay * ((attempt : ℚ) + (i : ℚ) + 1)),
         fuel⟩ := by
  intro fuel
  induction fuel with
  | zero => intro attempt _; simp [execLoop]
  | succ fuel ih =>
      intro attempt h
      obtain ⟨e, he, hl⟩ := h attempt (le_refl _) (by omega)
      rw [execLoop_step_transient ops s fuel attempt e he hl]
      rw [ih (attempt + 1) (fun n hn1 hn2 => h n (by omega) (by omega))]
      congr 1
      rw [List.range_succ_eq_map, List.map_cons, List.map_map]
      congr 1
      · push_cast
        ring
      · apply List.map_congr_left
        intro i _
        simp only [Function.comp_apply]
        push_cast
        ring

/-- A loop whose every attempt reports the unknown-commit-outcome label
returns `False` over the unchanged store with no backoff sleep at all. -/
lemma execLoop_all_unknown {σ : Type} (ops : List (OpBehavior σ)) (s : σ) :
    ∀ fuel attempt,
      (∀ n, attempt ≤ n → n < attempt + fuel →
        ∃ e, runOps ops n s = .error e ∧
          e.hasErrorLabel "TransientTransactionError" = false ∧
          e.hasErrorLabel "UnknownTransactionCommitResult" = true) →
      execLoop ops s attempt fuel = ⟨false, s, [], fuel⟩ := by
  intro fuel
  induction fuel with
  | zero => intro attempt _; simp [execLoop]
  | succ fuel ih =>
      intro attempt h
      obtain ⟨e, he, hl1, hl2⟩ := h attempt (le_refl _) (by omega)
      rw [execLoop_step_unknown ops s fuel attempt e he hl1 hl2]
      rw [ih (attempt + 1) (fun n hn1 hn2 => h n (by omega) (by omega))]

/-! ## Claim theorems -/

/-- C1.  For every ordered operation list handed to
`execute_transaction`, the outcome is all-or-nothing: either the call
reports `True` and the visible store is the result of one complete,
successful execution of all operations, or it reports `False` and the
visible store is exactly the initial one — no partial application is
observable.  In particular, for the concrete transaction `failLastOps`
whose last operation fails, the first operation's effect does not
persist. -/
theorem execute_transaction_atomicity :
    (∀ {σ : Type} (ops : List (OpBehavior σ)) (s : σ),
      ((execute_transaction ops s).committed = true ∧
        ∃ n, n < maxRetryAttempts ∧
          runOps ops n s = .ok (execute_transaction ops s).store) ∨
      ((execute_transaction ops s).committed = false ∧
        (execute_transaction ops s).store = s)) ∧
    execute_transaction failLastOps ([] : List String) = ⟨false, [], [], 1⟩ := by
  constructor
  · intro σ ops s
    rcases execLoop_atomic ops s maxRetryAttempts 0 with
      ⟨hc, n, _, hn2, hr⟩ | ⟨hc, hs⟩
    · exact Or.inl ⟨hc, n, by simpa using hn2, hr⟩
    · exact Or.inr ⟨hc, hs⟩
  · decide

/-- C2 counterexample.  A transaction failing with
`UnknownTransactionCommitResult` on its first attempt is retried (two
attempts execute) with an empty sleep list: no backoff sleep of
`retry_delay × attempt` precedes the unknown-commit retry, contrary to the
claim that both retryable conditions back off linearly. -/
theorem unknown_commit_retry_sleeps_nothing :
    execute_transaction unknownOnceOps ([] : List String) =
      ⟨true, [], [], 2⟩ ∧ retryDelay * 1 ≠ 0 := by
  constructor
  · decide
  · rw [retryDelay]
    norm_num

/-- C2 amended.  `execute_transaction` retries exactly the two labelled
conditions up to the 3-attempt budget: all-transient behaviour fails after
3 attempts with the linear backoff sleeps `retry_delay × 1, × 2, × 3`;
all-unknown-commit behaviour fails after 3 attempts with no sleeps at all;
an error carrying neither label is terminal after a single attempt; and a
successful first attempt commits immediately. -/
theorem execute_transaction_retry_policy :
    (∀ {σ : Type} (ops : List (OpBehavior σ)) (s : σ),
      (∀ n, n < maxRetryAttempts →
        ∃ e, runOps ops n s = .error e ∧
          e.hasErrorLabel "TransientTransactionError" = true) →
      execute_transaction ops s =
        ⟨false, s, [retryDelay * 1, retryDelay * 2, retryDelay * 3], 3⟩) ∧
    (∀ {σ : Type} (ops : List (OpBehavior σ)) (s : σ),
      (∀ n, n < maxRetryAttempts →
        ∃ e, runOps ops n s = .error e ∧
          e.hasErrorLabel "TransientTransactionError" = false ∧
          e.hasErrorLabel "UnknownTransactionCommitResult" = true) →
      execute_transaction ops s = ⟨false, s, [], 3⟩) ∧
    (∀ {σ : Type} (ops : List (OpBehavior σ)) (s : σ) (e : MongoError),
      runOps ops 0 s = .error e →
      e.hasErrorLabel "TransientTransactionError" = false →
      e.hasErrorLabel "UnknownTransactionCommitResult" = false →
      execute_transaction ops s = ⟨false, s, [], 1⟩) ∧
    (∀ {σ : Type} (ops : List (OpBehavior σ)) (s s' : σ),
      runOps ops 0 s = .ok s' →
      execute_transaction ops s = ⟨true, s', [], 1⟩) := by
  refine ⟨?_, ?_, ?_, ?_⟩
  · intro σ ops s h
    have := execLoop_all_transient ops s 3 0 (by
      intro n hn1 hn2
      exact h n (by simpa [maxRetryAttempts] using hn2))
    rw [execute_transaction, maxRetryAttempts, this]
    norm_num [List.range_succ]
  · intro σ ops s h
    exact execLoop_all_unknown ops s 3 0 (by
      intro n hn1 hn2
      exact h n (by simpa [maxRetryAttempts] using hn2))
  · intro σ ops s e he h1 h2
    exact execLoop_terminal_error ops s 2 0 e he h1 h2
  · intro σ ops s s' he
    exact execLoop_first_ok ops s s' 2 0 he

/-- C2 witness: the amended retry policy instantiated on concrete
behaviours — always-transient, always-unknown, terminal failure, and
immediate success. -/
theorem execute_transaction_retry_policy_witness :
    execute_transaction alwaysTransientOps ([] : List String) =
      ⟨false, [], [retryDelay * 1, retryDelay * 2, retryDelay * 3], 3⟩ ∧
    execute_transaction alwaysUnknownOps ([] : List String) =
      ⟨false, [], [], 3⟩ ∧
    execute_transaction failLastOps ([] : List String) = ⟨false, [], [], 1⟩ := by
  refine ⟨?_, ?_, ?_⟩
  · exact execute_transaction_retry_policy.1 alwaysTransientOps []
      (fun n _ => ⟨_, rfl, rfl⟩)
  · exact execute_transaction_retry_policy.2.1 alwaysUnknownOps []
      (fun n _ => ⟨_, rfl, rfl, rfl⟩)
  · exact execute_transaction_retry_policy.2.2.1 failLastOps []
      MongoError.otherException rfl rfl rfl

/-- C4 (code bug).  With a `task_assignment` message for task `T1` sitting
in the developer queue and no task `T1` in the store, a full sync pass
detects zero inconsistencies and creates no task — because
`_peek_queue_messages` returns no messages for any queue state — even
though `_resolve_orphaned_message`, handed the orphaned-message
inconsistency directly, does create task `T1` with status `assigned` and
`recovered = true` as the claim describes. -/
theorem sync_pass_never_materializes_orphaned_task :
    (perform_sync emptyDb c4queues 0).1 = ⟨0, 0⟩ ∧
    get_task (perform_sync emptyDb c4queues 0).2.1 "T1" = none ∧
    peek_queue_messages c4queues DEVELOPER_QUEUE = [] ∧
    (resolve_orphaned_message emptyDb c4queues c4inc 0).1 = true ∧
    ((get_task (resolve_orphaned_message emptyDb c4queues c4inc 0).2.1
        "T1").bind (fun t => getField t "status") =
      some (Value.vStr "assigned")) ∧
    ((get_task (resolve_orphaned_message emptyDb c4queues c4inc 0).2.1
        "T1").bind (fun t => getField t "recovered") =
      some (Value.vBool true)) := by
  refine ⟨by decide, by decide, rfl, by decide, by decide, by decide⟩

/-- C5 (code bug).  `run_full_check` does flag the task whose metadata
`completed_at` precedes `created_at` as a high-severity, auto-repairable
`temporal_inconsistency`; but with `auto_repair = true` the repair applied
to it is `_repair_task_agent_references` (the first rule in the table whose
collection matches `tasks`), so the task's `completed_at` stays unchanged —
it is not set to `created_at + 1h` — and its status is clobbered to
`created` instead. -/
theorem temporal_repair_applies_wrong_repair :
    (run_full_check c5db true 2000).1.map Issue.type =
      [CCIncType.temporalInconsistency] ∧
    (run_full_check c5db true 2000).1.map Issue.severity = ["high"] ∧
    (run_full_check c5db true 2000).1.map Issue.can_auto_repair = [true] ∧
    (run_full_check c5db true 2000).2.1 = 1 ∧
    ((get_task (run_full_check c5db true 2000).2.2 "T5").bind
        (fun t => (getFieldD t "metadata" Value.vObjNil).objLookup
          "completed_at") = some (Value.vDtStr 0)) ∧
    ((get_task (run_full_check c5db true 2000).2.2 "T5").bind
        (fun t => getField t "status") = some (Value.vStr "created")) := by
  refine ⟨by decide, by decide, by decide, by decide, by decide, by decide⟩

/-- C8.  The components table marks exactly the store (`mongodb`) and the
queue (`rabbitmq`) critical; a restart action with the default 3-retry
budget whose restart keeps failing executes exactly 3 attempts and then,
for either critical component, enters safe mode — stopping both agent
processes and raising a critical alert — while for either non-critical
agent component the same exhaustion merely disables the component, with no
stop signals and no alert. -/
theorem recovery_exhaustion_behavior :
    (∀ c, componentsCritical.lookup c = some true ↔
      c = "mongodb" ∨ c = "rabbitmq") ∧
    drainFailingAction ⟨"mongodb", "restart", 1, 0, 3⟩ 3 =
      (3, [.restartAttempt "mongodb", .restartAttempt "mongodb",
           .restartAttempt "mongodb", .stopAgent "manager_agent",
           .stopAgent "developer_agent",
           .alert "critical" "CRITICAL: System in safe mode"]) ∧
    drainFailingAction c8action 3 =
      (3, [.restartAttempt "rabbitmq", .restartAttempt "rabbitmq",
           .restartAttempt "rabbitmq", .stopAgent "manager_agent",
           .stopAgent "developer_agent",
           .alert "critical" "CRITICAL: System in safe mode"]) ∧
    drainFailingAction c8actionNc 3 =
      (3, [.restartAttempt "manager_agent", .restartAttempt "manager_agent",
           .restartAttempt "manager_agent", .disable "manager_agent"]) ∧
    drainFailingAction ⟨"developer_agent", "restart", 3, 0, 3⟩ 3 =
      (3, [.restartAttempt "developer_agent",
           .restartAttempt "developer_agent",
           .restartAttempt "developer_agent",
           .disable "developer_agent"]) := by
  refine ⟨?_, by decide, by decide, by decide, by decide⟩
  intro c
  by_cases h1 : c = "mongodb"
  · subst h1; decide
  by_cases h2 : c = "rabbitmq"
  · subst h2; decide
  by_cases h3 : c = "manager_agent"
  · subst h3; decide
  by_cases h4 : c = "developer_agent"
  · subst h4; decide
  have e1 : (c == "mongodb") = false := beq_eq_false_iff_ne.mpr h1
  have e2 : (c == "rabbitmq") = false := beq_eq_false_iff_ne.mpr h2
  have e3 : (c == "manager_agent") = false := beq_eq_false_iff_ne.mpr h3
  have e4 : (c == "developer_agent") = false := beq_eq_false_iff_ne.mpr h4
  simp [componentsCritical, List.lookup, e1, e2, e3, e4, h1, h2]

set_option maxRecDepth 100000 in
/-- C9 counterexample.  A tasks collection holding 1000 conforming
documents followed by one document violating every required-field rule
yields no schema issue at all, although the same violating document placed
within the sample is reported: the tasks collection is sampled at 1000
documents, not examined exhaustively. -/
theorem schema_validation_misses_document_beyond_sample :
    validate_schemas c9db = [] ∧
    validate_schemas
      { tasks := [c9bad], agent_states := [], activity_logs := [],
        sync_status := [] } ≠ [] := by
  constructor
  · decide
  · decide

/-- C9 amended.  The schema-validation pass consults only the
`find().limit(1000)` sample of every collection it checks — the activity
log, the tasks collection and the agent-states collection alike: truncating
each of the three collections to its first 1000 documents never changes the
issues reported. -/
theorem schema_validation_sample_bound :
    ∀ db : Db, validate_schemas db = validate_schemas (truncDb db) := by
  intro db
  simp [validate_schemas, truncDb, getCollection, schemas, List.take_take]

/-! ## Document and update-primitive lemmas -/

/-- Setting a field makes it readable. -/
lemma getField_setTop_self (d : Doc) (k : String) (v : Value) :
    getField (setTop d k v) k = some v := by
  induction d with
  | nil => simp [getField, setTop, List.lookup]
  | cons kv rest ih =>
      by_cases h : kv.1 = k
      · simp [getField, setTop, h, List.lookup]
      · have : (k == kv.1) = false := beq_eq_false_iff_ne.mpr (Ne.symm h)
        simpa [getField, setTop, h, List.lookup, this] using ih

/-- Setting a field leaves every other field unchanged. -/
lemma getField_setTop_ne (d : Doc) (k k' : String) (v : Value)
    (h : k' ≠ k) : getField (setTop d k v) k' = getField d k' := by
  induction d with
  | nil =>
      have : (k' == k) = false := beq_eq_false_iff_ne.mpr h
      simp [getField, setTop, List.lookup, this]
  | cons kv rest ih =>
      by_cases hk : kv.1 = k
      · have h1 : (k' == k) = false := beq_eq_false_iff_ne.mpr h
        have h2 : (k' == kv.1) = false := by rw [hk]; exact h1
        simp [getField, setTop, hk, List.lookup, h1, h2]
      · by_cases hkv : k' = kv.1
        · simp [getField, setTop, hk, List.lookup, hkv]
        · have h2 : (k' == kv.1) = false := beq_eq_false_iff_ne.mpr hkv
          simpa [getField, setTop, hk, List.lookup, h2] using ih

/-- Setting a batch of fields leaves a field outside the batch
unchanged. -/
lemma getField_setTops_ne (kvs : List (String × Value)) (k : String)
    (h : ∀ kv ∈ kvs, kv.1 ≠ k) :
    ∀ d : Doc, getField (setTops d kvs) k = getField d k := by
  induction kvs with
  | nil => intro d; simp [setTops]
  | cons kv rest ih =>
      intro d
      have h1 : kv.1 ≠ k := h kv (by simp)
      have h2 : ∀ kv' ∈ rest, kv'.1 ≠ k := fun kv' hm => h kv' (by simp [hm])
      calc getField (setTops d (kv :: rest)) k
          = getField (setTops (setTop d kv.1 kv.2) rest) k := by
            simp [setTops]
        _ = getField (setTop d kv.1 kv.2) k := ih h2 _
        _ = getField d k := getField_setTop_ne d kv.1 k kv.2 (Ne.symm h1)

/-- The `update_data` batch of `update_task_state` never touches
`task_id`. -/
lemma taskStateUpdate_keeps_task_id (st : String)
    (md : List (String × Value)) (now : Int) (d : Doc) :
    getField (setTops d (taskStateUpdate st md now)) "task_id" =
      getField d "task_id" := by
  apply getField_setTops_ne
  intro kv hkv
  by_cases h : md.isEmpty
  · simp [taskStateUpdate, h] at hkv
    rcases hkv with h1 | h1 <;> simp [h1]
  · simp [taskStateUpdate, h] at hkv
    rcases hkv with h1 | h1 | h1 <;> simp [h1]

/-- Filter stability through the task-state transform: the updated document
matches the same `task_id` filters as the original. -/
lemma taskIdIs_setTops_update (tid st : String) (md : List (String × Value))
    (now : Int) (d : Doc) :
    taskIdIs tid (setTops d (taskStateUpdate st md now)) = taskIdIs tid d := by
  simp [taskIdIs, taskStateUpdate_keeps_task_id]

/-- Field content of the task-state transform with a non-empty metadata
map: `status`, `updated_at` and the whole `metadata` field are set, every
other field is untouched. -/
lemma taskStateTransform_fields (t : Doc) (st : String)
    (md : List (String × Value)) (now : Int) (hmd : md ≠ []) :
    getField (setTops t (taskStateUpdate st md now)) "status" =
      some (Value.vStr st) ∧
    getField (setTops t (taskStateUpdate st md now)) "updated_at" =
      some (Value.vDt now) ∧
    getField (setTops t (taskStateUpdate st md now)) "metadata" =
      some (Value.vObj md) ∧
    (∀ k, k ≠ "status" → k ≠ "updated_at" → k ≠ "metadata" →
      getField (setTops t (taskStateUpdate st md now)) k = getField t k) := by
  have hmd' : md.isEmpty = false := by
    cases md
    · exact absurd rfl hmd
    · rfl
  have hupd : taskStateUpdate st md now =
      [("status", Value.vStr st), ("updated_at", Value.vDt now),
       ("metadata", Value.vObj md)] := by
    simp [taskStateUpdate, hmd']
  rw [hupd]
  have hshape : setTops t
      [("status", Value.vStr st), ("updated_at", Value.vDt now),
       ("metadata", Value.vObj md)] =
      setTop (setTop (setTop t "status" (Value.vStr st))
        "updated_at" (Value.vDt now)) "metadata" (Value.vObj md) := by
    simp [setTops]
  rw [hshape]
  refine ⟨?_, ?_, ?_, ?_⟩
  · rw [getField_setTop_ne _ _ _ _ (by decide),
        getField_setTop_ne _ _ _ _ (by decide), getField_setTop_self]
  · rw [getField_setTop_ne _ _ _ _ (by decide), getField_setTop_self]
  · rw [getField_setTop_self]
  · intro k hk1 hk2 hk3
    rw [getField_setTop_ne _ _ _ _ hk3, getField_setTop_ne _ _ _ _ hk2,
        getField_setTop_ne _ _ _ _ hk1]

/-- Updating the first `p`-match rewrites the `find? p` result through `f`
when `f` preserves `p`. -/
lemma updateOne_find?_eq (p : Doc → Bool) (f : Doc → Doc)
    (hf : ∀ d, p d = true → p (f d) = true) :
    ∀ (docs : List Doc) (t : Doc), docs.find? p = some t →
      (updateOne docs p f).2.find? p = some (f t) := by
  intro docs
  induction docs with
  | nil => intro t h; simp at h
  | cons d rest ih =>
      intro t h
      by_cases hp : p d = true
      · rw [List.find?_cons_of_pos _ hp] at h
        injection h with h
        subst h
        simp only [updateOne, hp, if_true]
        exact List.find?_cons_of_pos _ (hf d hp)
      · have hpd : p d = false := by simpa using hp
        rw [List.find?_cons_of_neg _ (by simp [hpd])] at h
        have hrec := ih t h
        simp only [updateOne, hpd, Bool.false_eq_true, if_false]
        rw [List.find?_cons_of_neg _ (by simp [hpd])]
        exact hrec

/-- Updating `p`-matches does not move the `find? q` result when `f`
preserves `q` and no document matches both filters. -/
lemma find?_updateOne_disjoint (p q : Doc → Bool) (f : Doc → Doc)
    (hq : ∀ d, q (f d) = q d) (hpq : ∀ d, ¬(p d = true ∧ q d = true)) :
    ∀ docs : List Doc, (updateOne docs p f).2.find? q = docs.find? q := by
  intro docs
  induction docs with
  | nil => simp [updateOne]
  | cons d rest ih =>
      by_cases hp : p d = true
      · have hqd : q d = false := by
          cases h : q d
          · rfl
          · exact absurd ⟨hp, h⟩ (hpq d)
        have hqfd : q (f d) = false := by rw [hq]; exact hqd
        simp only [updateOne, hp, if_true]
        rw [List.find?_cons_of_neg _ (by simp [hqfd]),
            List.find?_cons_of_neg _ (by simp [hqd])]
      · have hpd : p d = false := by simpa using hp
        simp only [updateOne, hpd, Bool.false_eq_true, if_false]
        cases hqd : q d
        · rw [List.find?_cons_of_neg _ (by simp [hqd]),
              List.find?_cons_of_neg _ (by simp [hqd])]
          exact ih
        · rw [List.find?_cons_of_pos _ hqd, List.find?_cons_of_pos _ hqd]

/-- Updating through a `q`-preserving transform keeps `countP q`. -/
lemma countP_updateOne (p q : Doc → Bool) (f : Doc → Doc)
    (hq : ∀ d, q (f d) = q d) :
    ∀ docs : List Doc, (updateOne docs p f).2.countP q = docs.countP q := by
  intro docs
  induction docs with
  | nil => simp [updateOne]
  | cons d rest ih =>
      by_cases hp : p d = true
      · simp [updateOne, hp, List.countP_cons, hq]
      · simp [updateOne, hp, List.countP_cons, ih]

/-- In a list with at most one `q`-match, any `q`-matching member is the
`find? q` result. -/
lemma mem_eq_find?_of_countP_le_one (q : Doc → Bool) :
    ∀ (l : List Doc) (x t : Doc), l.countP q ≤ 1 → l.find? q = some x →
      t ∈ l → q t = true → t = x := by
  intro l
  induction l with
  | nil => intro x t _ h; simp at h
  | cons d rest ih =>
      intro x t hc hf hm hq
      by_cases hd : q d = true
      · rw [List.find?_cons_of_pos _ hd] at hf
        injection hf with hf
        subst hf
        rcases List.mem_cons.mp hm with h | h
        · exact h
        · exfalso
          have h1 : 0 < rest.countP q := List.countP_pos_iff.mpr ⟨t, h, hq⟩
          have h2 : (d :: rest).countP q = rest.countP q + 1 := by
            simp [List.countP_cons, hd]
          omega
      · rw [List.find?_cons_of_neg _ (by simpa using hd)] at hf
        rcases List.mem_cons.mp hm with h | h
        · subst h; exact absurd hq (by simpa using hd)
        · have hc' : rest.countP q ≤ 1 := by
            have : (d :: rest).countP q = rest.countP q := by
              simp [List.countP_cons, hd]
            omega
          exact ih x t hc' hf h hq

/-- Task updates never touch the agent-states collection. -/
lemma update_task_state_agent_states (db : Db) (tid st : String)
    (md : List (String × Value)) (now : Int) :
    ((update_task_state db tid st md now).2).agent_states =
      db.agent_states := by
  unfold update_task_state
  by_cases h0 : tid = ""
  · simp [h0]
  by_cases h1 : st = ""
  · simp [h0, h1]
  simp only [h0, h1, if_false]
  cases h : (updateOne db.tasks (taskIdIs tid)
      (fun d => setTops d (taskStateUpdate st md now))).1 <;>
    simp [h, log_activity]

/-- Task updates never touch the queues' monitored sync-status
collection. -/
lemma update_task_state_sync_status (db : Db) (tid st : String)
    (md : List (String × Value)) (now : Int) :
    ((update_task_state db tid st md now).2).sync_status = db.sync_status := by
  unfold update_task_state
  by_cases h0 : tid = ""
  · simp [h0]
  by_cases h1 : st = ""
  · simp [h0, h1]
  simp only [h0, h1, if_false]
  cases h : (updateOne db.tasks (taskIdIs tid)
      (fun d => setTops d (taskStateUpdate st md now))).1 <;>
    simp [h, log_activity]

/-- The tasks collection after `update_task_state` is the `updateOne`
rewrite (unchanged in the early-return branches). -/
lemma update_task_state_tasks (db : Db) (tid st : String)
    (md : List (String × Value)) (now : Int) (hne : tid ≠ "") (hst : st ≠ "") :
    ((update_task_state db tid st md now).2).tasks =
      (updateOne db.tasks (taskIdIs tid)
        (fun d => setTops d (taskStateUpdate st md now))).2 := by
  unfold update_task_state
  simp only [hne, hst, if_false]
  cases h : (updateOne db.tasks (taskIdIs tid)
      (fun d => setTops d (taskStateUpdate st md now))).1 <;>
    simp [h, log_activity]

/-- After a successful-or-not `update_task_state`, the first `task_id`
match is the transformed document. -/
lemma update_task_state_find_self (db : Db) (tid st : String)
    (md : List (String × Value)) (now : Int) (t : Doc)
    (h : db.tasks.find? (taskIdIs tid) = some t)
    (hne : tid ≠ "") (hst : st ≠ "") :
    ((update_task_state db tid st md now).2).tasks.find? (taskIdIs tid) =
      some (setTops t (taskStateUpdate st md now)) := by
  rw [update_task_state_tasks db tid st md now hne hst]
  exact updateOne_find?_eq (taskIdIs tid) _
    (fun d hd => by rw [taskIdIs_setTops_update]; exact hd) db.tasks t h

/-- Updating one task id leaves the first match of any other task id in
place. -/
lemma update_task_state_find_other (db : Db) (tid st : String)
    (md : List (String × Value)) (now : Int) (tid' : String)
    (hne : tid' ≠ tid) :
    ((update_task_state db tid st md now).2).tasks.find? (taskIdIs tid') =
      db.tasks.find? (taskIdIs tid') := by
  by_cases h0 : tid = ""
  · unfold update_task_state
    simp [h0]
  by_cases h1 : st = ""
  · unfold update_task_state
    simp [h0, h1]
  rw [update_task_state_tasks db tid st md now h0 h1]
  apply find?_updateOne_disjoint
  · intro d; rw [taskIdIs_setTops_update]
  · intro d hd
    obtain ⟨ha, hb⟩ := hd
    simp only [taskIdIs, decide_eq_true_eq] at ha hb
    rw [ha] at hb
    have h2 : tid = tid' := by
      injection hb with h3
      injection h3
    exact hne h2.symm

/-- C10.  Every `update_task_state` call with a non-empty metadata map
replaces the stored task's `metadata` field wholly by the given map —
previously present metadata keys not in the new map are lost — sets
`status` and `updated_at`, and changes no other task field (in particular
`assigned_to` is untouched); the agent-states collection is untouched as
well. -/
theorem update_task_state_frame_spec (db : Db) (tid st : String)
    (md : List (String × Value)) (now : Int) (t : Doc)
    (h : get_task db tid = some t) (hne : tid ≠ "") (hst : st ≠ "")
    (hmd : md ≠ []) :
    ∃ t', get_task (update_task_state db tid st md now).2 tid = some t' ∧
      getField t' "metadata" = some (Value.vObj md) ∧
      getField t' "status" = some (Value.vStr st) ∧
      getField t' "updated_at" = some (Value.vDt now) ∧
      (∀ k, k ≠ "status" → k ≠ "updated_at" → k ≠ "metadata" →
        getField t' k = getField t k) ∧
      (update_task_state db tid st md now).2.agent_states =
        db.agent_states := by
  have hfind := update_task_state_find_self db tid st md now t h hne hst
  obtain ⟨h1, h2, h3, h4⟩ := taskStateTransform_fields t st md now hmd
  exact ⟨setTops t (taskStateUpdate st md now), hfind, h3, h1, h2, h4,
    update_task_state_agent_states db tid st md now⟩

/-- C10 witness: the frame property applied to a concrete store, showing
the old `started_at` metadata key is gone and `assigned_to` survives. -/
theorem update_task_state_frame_spec_witness :
    ∃ t', get_task (update_task_state c10db "T" "assigned"
        [("stalled_at", Value.vDtStr 9)] 9).2 "T" = some t' ∧
      getField t' "metadata" =
        some (Value.vObj [("stalled_at", Value.vDtStr 9)]) ∧
      getField t' "status" = some (Value.vStr "assigned") ∧
      getField t' "assigned_to" = getField c10task "assigned_to" := by
  obtain ⟨t', h1, h2, h3, h4, h5, h6⟩ :=
    update_task_state_frame_spec c10db "T" "assigned"
      [("stalled_at", Value.vDtStr 9)] 9 c10task (by decide) (by decide)
      (by decide) (by decide)
  exact ⟨t', h1, h2, h3, h5 "assigned_to" (by decide) (by decide) (by decide)⟩

/-! ## Status-transition walk lemmas -/

/-- Materializing an encoded array returns the encoded list. -/
lemma elems_vList (l : List Value) : (Value.vList l).elems = l := by
  induction l with
  | nil => rfl
  | cons v rest ih => simp [Value.vList, Value.elems, ih]

/-- Counting form of a filter-shaped `filterMap`. -/
lemma length_filterMap_if {α β : Type} (q : α → Bool) (g : α → β) :
    ∀ l : List α,
      (l.filterMap (fun x => if q x then none else some (g x))).length =
        l.countP (fun x => !q x) := by
  intro l
  induction l with
  | nil => rfl
  | cons a rest ih =>
      cases h : q a <;> simp [List.filterMap_cons, List.countP_cons, h, ih]

/-- The pairwise walk over a well-formed history trail produces exactly one
issue per invalid adjacent pair, in order, and never raises. -/
lemma statusPairsWalk_map (t : Doc) (did tid : Value)
    (h1 : getField t "_id" = some did)
    (h2 : getField t "task_id" = some tid) :
    ∀ es : List String,
      statusPairsWalk t (es.map histEntry) =
        ((es.zip es.tail).filterMap (fun p =>
          if (valid_transitions p.1).contains p.2 then none
          else some (transIssueAt did tid p.1 p.2)), none) := by
  intro es
  induction es with
  | nil => simp [statusPairsWalk]
  | cons a tail ih =>
      cases tail with
      | nil => simp [statusPairsWalk]
      | cons b rest =>
          have ea : entryStatus (histEntry a) = .ok (Value.vStr a) := rfl
          have eb : entryStatus (histEntry b) = .ok (Value.vStr b) := rfl
          have hre : reqField t "_id" = .ok did := by simp [reqField, h1]
          have hrt : reqField t "task_id" = .ok tid := by simp [reqField, h2]
          simp only [List.map_cons, statusPairsWalk, ea, eb]
          by_cases hc : (valid_transitions a).contains b = true
          · rw [if_pos hc]
            rw [show (histEntry b :: rest.map histEntry) =
              (b :: rest).map histEntry by simp]
            rw [ih]
            have hm : b ∈ valid_transitions a := by simpa using hc
            simp [List.zip_cons_cons, List.filterMap_cons, hm]
          · rw [if_neg hc]
            simp only [hre, hrt]
            rw [show (histEntry b :: rest.map histEntry) =
              (b :: rest).map histEntry by simp]
            rw [ih]
            have hm : b ∉ valid_transitions a := by simpa using hc
            simp [consIssues, List.zip_cons_cons, List.filterMap_cons, hm,
              transIssueAt, strOf, Value.asStr]

/-- C6.  Walking a task's status-history trail reports exactly one
`invalid_status_transition` issue — medium severity, never auto-repairable —
for each adjacent pair outside the valid-transition graph, and nothing for
pairs inside it; and the code's transition table contains precisely the
edges the specification enumerates. -/
theorem status_transition_check_spec :
    ∀ hist : List String,
      check_task_status_consistency (histDb hist) =
        ((hist.zip hist.tail).filterMap (fun p =>
          if (valid_transitions p.1).contains p.2 then none
          else some (transIssueAt (Value.vStr "t6") (Value.vStr "T6")
            p.1 p.2)), none) ∧
      (check_task_status_consistency (histDb hist)).1.length =
        (hist.zip hist.tail).countP
          (fun p => !(valid_transitions p.1).contains p.2) ∧
      (∀ i ∈ (check_task_status_consistency (histDb hist)).1,
        i.type = .invalidStatusTransition ∧ i.severity = "medium" ∧
          i.can_auto_repair = false) ∧
      (∀ p c, (valid_transitions p).contains c = true ↔
        specTransitionGraph p c) := by
  intro hist
  have hmain : check_task_status_consistency (histDb hist) =
      ((hist.zip hist.tail).filterMap (fun p =>
        if (valid_transitions p.1).contains p.2 then none
        else some (transIssueAt (Value.vStr "t6") (Value.vStr "T6")
          p.1 p.2)), none) := by
    have hlook : (getFieldD (mkHistTask hist) "metadata"
        Value.vObjNil).objLookup "status_history" =
        some (Value.vList (hist.map histEntry)) := by
      simp [mkHistTask, getFieldD, getField, List.lookup, Value.vObj,
        Value.objLookup]
    show statusConsistencyLoop [mkHistTask hist] = _
    rw [statusConsistencyLoop]
    simp only [hlook, elems_vList]
    rw [statusPairsWalk_map (mkHistTask hist) (Value.vStr "t6")
      (Value.vStr "T6") (by rfl) (by rfl) hist]
    simp [statusConsistencyLoop, consIssues]
  refine ⟨hmain, ?_, ?_, ?_⟩
  · rw [hmain]
    exact length_filterMap_if _ _ (hist.zip hist.tail)
  · rw [hmain]
    intro i hi
    simp only [List.mem_filterMap] at hi
    obtain ⟨p, _, hp⟩ := hi
    cases hc : (valid_transitions p.1).contains p.2 <;> rw [hc] at hp
    · simp only [if_false, Bool.false_eq_true, Option.some.injEq] at hp
      subst hp
      exact ⟨rfl, rfl, rfl⟩
    · simp at hp
  · intro p c
    unfold valid_transitions
    split <;> simp_all [specTransitionGraph]

/-! ## Synchronization-resolution lemmas -/

/-- Logging touches only the activity log. -/
lemma log_activity_agent_states (db : Db) (aid ty : String) (d : Value)
    (now : Int) : (log_activity db aid ty d now).agent_states =
      db.agent_states := rfl

/-- Logging leaves the tasks collection alone. -/
lemma log_activity_tasks (db : Db) (aid ty : String) (d : Value)
    (now : Int) : (log_activity db aid ty d now).tasks = db.tasks := rfl

/-- Agent-state updates never touch the tasks collection. -/
lemma update_agent_state_tasks (db : Db) (aid : String) (st : Option String)
    (md : List (String × Value)) (now : Int) :
    (update_agent_state db aid st md now).2.tasks = db.tasks := by
  unfold update_agent_state
  by_cases h : aid = "" <;> simp [h, log_activity]

/-- A found document witnesses `List.any`. -/
lemma any_of_find? (p : Doc → Bool) (l : List Doc) (a : Doc)
    (h : l.find? p = some a) : l.any p = true :=
  List.any_eq_true.mpr ⟨a, List.mem_of_find?_eq_some h, List.find?_some h⟩

/-- A batch whose last entry sets `k` makes `k` read that value. -/
lemma getField_setTops_last_self (d : Doc) (kvs : List (String × Value))
    (k : String) (v : Value) :
    getField (setTops d (kvs ++ [(k, v)])) k = some v := by
  have : setTops d (kvs ++ [(k, v)]) = setTop (setTops d kvs) k v := by
    simp [setTops, List.foldl_append]
  rw [this, getField_setTop_self]

/-- Updating agents by id: the upserted agent document is the `$set`
rewrite of the found document. -/
lemma update_agent_state_find (db : Db) (aid : String) (st : Option String)
    (md : List (String × Value)) (now : Int) (a : Doc)
    (hne : aid ≠ "")
    (ha : db.agent_states.find?
      (fun d => getField d "agent_id" = some (Value.vStr aid)) = some a) :
    (update_agent_state db aid st md now).2.agent_states.find?
        (fun d => getField d "agent_id" = some (Value.vStr aid)) =
      some (setTops a
        ((match st with
          | some s => [("status", Value.vStr s)]
          | none => []) ++ md ++
          [("last_updated", Value.vDt now), ("agent_id", Value.vStr aid)])) := by
  have hstep : ∀ d : Doc,
      getField (setTops d
        ((match st with
          | some s => [("status", Value.vStr s)]
          | none => []) ++ md ++
          [("last_updated", Value.vDt now), ("agent_id", Value.vStr aid)]))
        "agent_id" = some (Value.vStr aid) := by
    intro d
    have he : ((match st with
        | some s => [("status", Value.vStr s)]
        | none => []) ++ md ++
        [("last_updated", Value.vDt now), ("agent_id", Value.vStr aid)]) =
        ((match st with
          | some s => [("status", Value.vStr s)]
          | none => []) ++ md ++ [("last_updated", Value.vDt now)]) ++
          [("agent_id", Value.vStr aid)] := by
      simp
    rw [he, getField_setTops_last_self]
  unfold update_agent_state
  simp only [hne, if_false, log_activity]
  unfold upsertOne
  rw [if_pos (any_of_find? _ _ _ ha)]
  exact updateOne_find?_eq _ _
    (fun d hd => by simpa using hstep d) db.agent_states a ha

/-- The reassignment loop never touches agent states. -/
lemma reassignLoop_agent_states (prev : Value) (now : Int) :
    ∀ (l : List Doc) (db : Db),
      (reassignLoop db l prev now).2.agent_states = db.agent_states := by
  intro l
  induction l with
  | nil => intro db; rfl
  | cons d rest ih =>
      intro db
      unfold reassignLoop
      cases h : (getField d "task_id").bind Value.asStr with
      | none => rfl
      | some tid =>
          simp only []
          rw [ih]
          exact update_task_state_agent_states db tid "created"
            (reassignMeta prev) now

/-- An update that matches nothing changes nothing. -/
lemma updateOne_no_match (p : Doc → Bool) (f : Doc → Doc) :
    ∀ docs : List Doc, (∀ d ∈ docs, p d = false) →
      updateOne docs p f = (false, docs) := by
  intro docs
  induction docs with
  | nil => intro _; rfl
  | cons d rest ih =>
      intro h
      have hd : p d = false := h d (by simp)
      simp [updateOne, hd, ih (fun d' hd' => h d' (by simp [hd']))]

/-- Lists with at most one `q`-match: membership plus matching pins the
`find?` result. -/
lemma find?_eq_some_of_mem_countP (q : Doc → Bool) :
    ∀ (l : List Doc) (t : Doc), l.countP q ≤ 1 → t ∈ l → q t = true →
      l.find? q = some t := by
  intro l
  induction l with
  | nil => intro t _ h; simp at h
  | cons d rest ih =>
      intro t hc hm hq
      by_cases hd : q d = true
      · rw [List.find?_cons_of_pos _ hd]
        rcases List.mem_cons.mp hm with h | h
        · rw [h]
        · exfalso
          have h1 : 0 < rest.countP q := List.countP_pos_iff.mpr ⟨t, h, hq⟩
          have h2 : (d :: rest).countP q = rest.countP q + 1 := by
            simp [List.countP_cons, hd]
          omega
      · have hd' : q d = false := by simpa using hd
        rw [List.find?_cons_of_neg _ (by simp [hd'])]
        rcases List.mem_cons.mp hm with h | h
        · subst h; exact absurd hq (by simp [hd'])
        · have hc' : rest.countP q ≤ 1 := by
            have : (d :: rest).countP q = rest.countP q := by
              simp [List.countP_cons, hd']
            omega
          exact ih t hc' h hq

/-- At most one document per task id forces pairwise-distinct ids. -/
lemma pairwise_distinct_of_countP :
    ∀ l : List Doc, (∀ s, l.countP (taskIdIs s) ≤ 1) →
      (∀ d ∈ l, ∃ s, getField d "task_id" = some (Value.vStr s)) →
      l.Pairwise (fun x y => getField x "task_id" ≠ getField y "task_id") := by
  intro l
  induction l with
  | nil => intro _ _; exact List.Pairwise.nil
  | cons d rest ih =>
      intro hu hid
      refine List.Pairwise.cons ?_ (ih ?_ ?_)
      · intro y hy heq
        obtain ⟨sd, hsd⟩ := hid d (by simp)
        have hqd : taskIdIs sd d = true := by simp [taskIdIs, hsd]
        have hqy : taskIdIs sd y = true := by
          simp [taskIdIs, ← heq, hsd]
        have h1 : 0 < rest.countP (taskIdIs sd) :=
          List.countP_pos_iff.mpr ⟨y, hy, hqy⟩
        have h2 : (d :: rest).countP (taskIdIs sd) =
            rest.countP (taskIdIs sd) + 1 := by
          simp [List.countP_cons, hqd]
        have := hu sd
        omega
      · intro s
        have h2 : rest.countP (taskIdIs s) ≤ (d :: rest).countP (taskIdIs s) := by
          simp only [List.countP_cons]
          omega
        exact le_trans h2 (hu s)
      · intro d' hd'
        exact hid d' (by simp [hd'])

/-- Walking the reassignment loop over tasks with pairwise-distinct string
ids: a task in the list ends up transformed (status `created`, metadata
replaced), and a task id absent from the list keeps its first match
untouched. -/
lemma reassignLoop_find (prev : Value) (now : Int) :
    ∀ (l : List Doc) (db : Db) (tid : String) (t : Doc),
      tid ≠ "" →
      db.tasks.find? (taskIdIs tid) = some t →
      l.Pairwise (fun x y => getField x "task_id" ≠ getField y "task_id") →
      (∀ d ∈ l, ∃ s, getField d "task_id" = some (Value.vStr s)) →
      ((t ∈ l →
          (reassignLoop db l prev now).2.tasks.find? (taskIdIs tid) =
            some (setTops t
              (taskStateUpdate "created" (reassignMeta prev) now))) ∧
       ((∀ d ∈ l, getField d "task_id" ≠ some (Value.vStr tid)) →
          (reassignLoop db l prev now).2.tasks.find? (taskIdIs tid) =
            some t)) := by
  intro l
  induction l with
  | nil =>
      intro db tid t hne hf _ _
      exact ⟨fun h => absurd h (by simp), fun _ => hf⟩
  | cons d rest ih =>
      intro db tid t hne hf hpw hids
      obtain ⟨sd, hsd⟩ := hids d (by simp)
      have hbind : (getField d "task_id").bind Value.asStr = some sd := by
        rw [hsd]; rfl
      have hstep : reassignLoop db (d :: rest) prev now =
          reassignLoop (update_task_state db sd "created"
            (reassignMeta prev) now).2 rest prev now := by
        simp only [reassignLoop, hbind, reassignMeta]
      have hq : taskIdIs tid t = true := List.find?_some hf
      have htid : getField t "task_id" = some (Value.vStr tid) := by
        simpa [taskIdIs] using hq
      constructor
      · intro hmem
        rcases List.mem_cons.mp hmem with heq | hmem'
        · subst heq
          have hsdtid : sd = tid := by
            rw [htid] at hsd
            injection hsd with h
            injection h with h
            exact h.symm
          subst hsdtid
          rw [hstep]
          have hfind2 := update_task_state_find_self db sd "created"
            (reassignMeta prev) now t hf hne (by decide)
          have hrest : ∀ d' ∈ rest,
              getField d' "task_id" ≠ some (Value.vStr sd) := by
            intro d' hd' heq'
            exact (List.pairwise_cons.mp hpw).1 d' hd' (htid.trans heq'.symm)
          exact (ih _ sd _ hne hfind2 (List.pairwise_cons.mp hpw).2
            (fun d' hd' => hids d' (by simp [hd']))).2 hrest
        · have hdne : getField d "task_id" ≠ getField t "task_id" :=
            (List.pairwise_cons.mp hpw).1 t hmem'
          have hsdne : tid ≠ sd := by
            intro h
            apply hdne
            rw [hsd, htid, h]
          rw [hstep]
          have hpres := update_task_state_find_other db sd "created"
            (reassignMeta prev) now tid hsdne
          exact (ih _ tid t hne (hpres.trans hf)
            (List.pairwise_cons.mp hpw).2
            (fun d' hd' => hids d' (by simp [hd']))).1 hmem'
      · intro hnone
        have hsdne : tid ≠ sd := by
          intro h
          exact hnone d (by simp) (by rw [hsd, h])
        rw [hstep]
        have hpres := update_task_state_find_other db sd "created"
          (reassignMeta prev) now tid hsdne
        exact (ih _ tid t hne (hpres.trans hf)
          (List.pairwise_cons.mp hpw).2
          (fun d' hd' => hids d' (by simp [hd']))).2
          (fun d' hd' => hnone d' (by simp [hd']))

/-- The health-check loop only ever adds to its accumulator. -/
lemma agentHealthLoop_acc_mem (db : Db) (now : Int) :
    ∀ (agents : List String) (acc : List SyncInc) (i : SyncInc),
      i ∈ acc → i ∈ agentHealthLoop db now agents acc := by
  intro agents
  induction agents with
  | nil => intro acc i h; simpa [agentHealthLoop] using h
  | cons aid rest ih =>
      intro acc i h
      unfold agentHealthLoop
      cases hga : get_agent_state db aid with
      | none => exact ih acc i h
      | some st =>
          simp only []
          cases htr : (getFieldD st "last_heartbeat" Value.vNull).truthy
          · simp only [Bool.false_eq_true, if_false]
            exact ih acc i h
          · simp only [if_true]
            cases hiso : (getFieldD st "last_heartbeat" Value.vNull).fromIso
            · exact h
            · simp only []
              split
              · exact ih _ i (by simp [h])
              · exact ih acc i h

/-- A monitored agent with a stale heartbeat is reported by the
health-check loop, provided every monitored agent's stored heartbeat is
either absent/falsy or a datetime string (so no earlier iteration
raises). -/
lemma agentHealthLoop_detects (db : Db) (now : Int) :
    ∀ (agents : List String) (acc : List SyncInc) (aid : String) (a : Doc)
      (hb : Int),
      aid ∈ agents →
      (∀ aid' ∈ agents, ∀ a', get_agent_state db aid' = some a' →
        (getFieldD a' "last_heartbeat" Value.vNull).truthy = true →
        ∃ ts, getFieldD a' "last_heartbeat" Value.vNull = Value.vDtStr ts) →
      get_agent_state db aid = some a →
      getField a "last_heartbeat" = some (Value.vDtStr hb) →
      hb < now - heartbeatTimeout →
      ∃ i ∈ agentHealthLoop db now agents acc,
        i.type = .agentUnresponsive ∧ i.agent_id = some (Value.vStr aid) := by
  intro agents
  induction agents with
  | nil => intro acc aid a hb h; simp at h
  | cons h rest ih =>
      intro acc aid a hb hmem hwf hga hhb hstale
      by_cases haid : aid = h
      · subst haid
        have hbv : getFieldD a "last_heartbeat" Value.vNull =
            Value.vDtStr hb := by
          simp [getFieldD, hhb]
        simp only [agentHealthLoop, hga, hbv, Value.truthy, Value.fromIso,
          if_true]
        rw [if_pos hstale]
        refine ⟨{ type := .agentUnresponsive, task_id := none,
                  agent_id := some (Value.vStr aid),
                  details := [("last_heartbeat", Value.vDtStr hb),
                              ("status", getFieldD a "status" Value.vNull),
                              ("time_since_heartbeat", Value.vInt (now - hb))],
                  severity := "critical", detected_at := now },
                agentHealthLoop_acc_mem db now rest _ _ (by simp), rfl, rfl⟩
      · have hmem' : aid ∈ rest := by
          rcases List.mem_cons.mp hmem with h1 | h1
          · exact absurd h1 haid
          · exact h1
        have hwf' : ∀ aid' ∈ rest, ∀ a', get_agent_state db aid' = some a' →
            (getFieldD a' "last_heartbeat" Value.vNull).truthy = true →
            ∃ ts, getFieldD a' "last_heartbeat" Value.vNull =
              Value.vDtStr ts :=
          fun aid' ha' => hwf aid' (by simp [ha'])
        cases hga2 : get_agent_state db h with
        | none =>
            simp only [agentHealthLoop, hga2]
            exact ih acc aid a hb hmem' hwf' hga hhb hstale
        | some st =>
            cases htr : (getFieldD st "last_heartbeat" Value.vNull).truthy
            · simp only [agentHealthLoop, hga2, htr, Bool.false_eq_true,
                if_false]
              exact ih acc aid a hb hmem' hwf' hga hhb hstale
            · obtain ⟨ts, hts⟩ := hwf h (by simp) st hga2 htr
              simp only [agentHealthLoop, hga2, hts, Value.truthy,
                Value.fromIso, if_true]
              split
              · exact ih _ aid a hb hmem' hwf' hga hhb hstale
              · exact ih acc aid a hb hmem' hwf' hga hhb hstale

/-- C3 counterexample.  On a store with a monitored agent whose heartbeat
is 400 seconds old and a task assigned to it, one sync pass flags the agent
and its resolution sets the agent to `error` and the task to `created` —
but the task's `assigned_to` field still holds the agent, it is neither
removed nor nulled; and an equally stale agent outside the monitored pair
(`worker-1`) is never flagged at all. -/
theorem unresponsive_resolution_keeps_assigned_to :
    check_agent_health c3db 400 = [c3inc] ∧
    check_agent_health c3dbW 400 = [] ∧
    ((get_task (perform_sync c3db emptyQueues 400).2.1 "T1").bind
      (fun t => getField t "status") = some (Value.vStr "created")) ∧
    ((get_task (perform_sync c3db emptyQueues 400).2.1 "T1").bind
      (fun t => getField t "assigned_to") = some (Value.vStr "developer")) ∧
    ((get_agent_state (perform_sync c3db emptyQueues 400).2.1
        "developer").bind (fun a => getField a "status") =
      some (Value.vStr "error")) := by
  refine ⟨by decide, by decide, by decide, by decide, by decide⟩

/-- C3 amended.  For each *monitored* agent (`manager`, `developer`) whose
stored heartbeat is a datetime string older than the timeout, a sync pass
reports an `agent_unresponsive` inconsistency (provided no earlier
monitored agent carries an unparseable heartbeat); and the resolution sets
that agent's status to `error` and resets every task assigned to it with
status `assigned` or `in_progress` to status `created`, *replacing* its
metadata with the reassignment record while leaving `assigned_to`
unchanged. -/
theorem unresponsive_agent_resolution_spec
    (db : Db) (qs : Queues) (now hb : Int) (aid : String) (a : Doc)
    (inc : SyncInc) :
    (aid ∈ ["manager", "developer"] →
      (∀ aid' ∈ (["manager", "developer"] : List String), ∀ a',
        get_agent_state db aid' = some a' →
        (getFieldD a' "last_heartbeat" Value.vNull).truthy = true →
        ∃ ts, getFieldD a' "last_heartbeat" Value.vNull = Value.vDtStr ts) →
      get_agent_state db aid = some a →
      getField a "last_heartbeat" = some (Value.vDtStr hb) →
      hb < now - heartbeatTimeout →
      ∃ i ∈ check_agent_health db now,
        i.type = .agentUnresponsive ∧ i.agent_id = some (Value.vStr aid)) ∧
    (inc.agent_id = some (Value.vStr aid) →
      aid ≠ "" →
      get_agent_state db aid = some a →
      (∀ s, db.tasks.countP (taskIdIs s) ≤ 1) →
      (∀ t ∈ db.tasks,
        agentTasksPred aid ["assigned", "in_progress"] t = true →
        ∃ s, s ≠ "" ∧ getField t "task_id" = some (Value.vStr s)) →
      ((∃ a', get_agent_state
            (resolve_unresponsive_agent db qs inc now).2.1 aid = some a' ∧
          getField a' "status" = some (Value.vStr "error")) ∧
       (∀ t tid, t ∈ db.tasks →
          agentTasksPred aid ["assigned", "in_progress"] t = true →
          getField t "task_id" = some (Value.vStr tid) →
          ∃ t', get_task (resolve_unresponsive_agent db qs inc now).2.1
              tid = some t' ∧
            getField t' "status" = some (Value.vStr "created") ∧
            getField t' "assigned_to" = getField t "assigned_to" ∧
            getField t' "metadata" =
              some (Value.vObj (reassignMeta (Value.vStr aid)))))) := by
  constructor
  · intro hmem hwf hga hhb hstale
    exact agentHealthLoop_detects db now ["manager", "developer"] [] aid a
      hb hmem hwf hga hhb hstale
  · intro hinc hne hga hcount hids
    have h21 : (resolve_unresponsive_agent db qs inc now).2.1 =
        (reassignLoop
          (update_agent_state db aid (some "error")
            [("error", Value.vStr "unresponsive"),
             ("last_known_heartbeat",
              getFieldD inc.details "last_heartbeat" Value.vNull),
             ("marked_unresponsive_at", Value.vDtStr now)] now).2
          (get_agent_tasks
            (update_agent_state db aid (some "error")
              [("error", Value.vStr "unresponsive"),
               ("last_known_heartbeat",
                getFieldD inc.details "last_heartbeat" Value.vNull),
               ("marked_unresponsive_at", Value.vDtStr now)] now).2
            aid ["assigned", "in_progress"])
          (Value.vStr aid) now).2 := by
      simp [resolve_unresponsive_agent, hinc, Value.asStr]
    have hut : (update_agent_state db aid (some "error")
        [("error", Value.vStr "unresponsive"),
         ("last_known_heartbeat",
          getFieldD inc.details "last_heartbeat" Value.vNull),
         ("marked_unresponsive_at", Value.vDtStr now)] now).2.tasks =
        db.tasks := update_agent_state_tasks db aid _ _ now
    constructor
    · have hagent := update_agent_state_find db aid (some "error")
        [("error", Value.vStr "unresponsive"),
         ("last_known_heartbeat",
          getFieldD inc.details "last_heartbeat" Value.vNull),
         ("marked_unresponsive_at", Value.vDtStr now)] now a hne hga
      have hstat : getField (setTops a
          ([("status", Value.vStr "error")] ++
            [("error", Value.vStr "unresponsive"),
             ("last_known_heartbeat",
              getFieldD inc.details "last_heartbeat" Value.vNull),
             ("marked_unresponsive_at", Value.vDtStr now)] ++
            [("last_updated", Value.vDt now),
             ("agent_id", Value.vStr aid)])) "status" =
          some (Value.vStr "error") := by
        have hsh : setTops a
            ([("status", Value.vStr "error")] ++
              [("error", Value.vStr "unresponsive"),
               ("last_known_heartbeat",
                getFieldD inc.details "last_heartbeat" Value.vNull),
               ("marked_unresponsive_at", Value.vDtStr now)] ++
              [("last_updated", Value.vDt now),
               ("agent_id", Value.vStr aid)]) =
            setTops (setTop a "status" (Value.vStr "error"))
              [("error", Value.vStr "unresponsive"),
               ("last_known_heartbeat",
                getFieldD inc.details "last_heartbeat" Value.vNull),
               ("marked_unresponsive_at", Value.vDtStr now),
               ("last_updated", Value.vDt now),
               ("agent_id", Value.vStr aid)] := by
          simp [setTops]
        rw [hsh]
        rw [getField_setTops_ne _ "status" ?hks _]
        · exact getField_setTop_self _ _ _
        case hks =>
          intro kv hkv
          fin_cases hkv <;> simp
      refine ⟨setTops a
        ([("status", Value.vStr "error")] ++
          [("error", Value.vStr "unresponsive"),
           ("last_known_heartbeat",
            getFieldD inc.details "last_heartbeat" Value.vNull),
           ("marked_unresponsive_at", Value.vDtStr now)] ++
          [("last_updated", Value.vDt now),
           ("agent_id", Value.vStr aid)]), ?_, hstat⟩
      show (resolve_unresponsive_agent db qs inc now).2.1.agent_states.find?
        (fun d => getField d "agent_id" = some (Value.vStr aid)) = _
      rw [h21, reassignLoop_agent_states]
      exact hagent
    · intro t tid hmem hpred htid
      obtain ⟨s, hs0, hsid⟩ := hids t hmem hpred
      have hstid : s = tid := by
        simpa using hsid.symm.trans htid
      have htne : tid ≠ "" := hstid ▸ hs0
      have hfdb : (update_agent_state db aid (some "error")
          [("error", Value.vStr "unresponsive"),
           ("last_known_heartbeat",
            getFieldD inc.details "last_heartbeat" Value.vNull),
           ("marked_unresponsive_at", Value.vDtStr now)] now).2.tasks.find?
            (taskIdIs tid) = some t := by
        rw [hut]
        exact find?_eq_some_of_mem_countP (taskIdIs tid) db.tasks t
          (hcount tid) hmem (by simp [taskIdIs, htid])
      have hactive : get_agent_tasks (update_agent_state db aid (some "error")
          [("error", Value.vStr "unresponsive"),
           ("last_known_heartbeat",
            getFieldD inc.details "last_heartbeat" Value.vNull),
           ("marked_unresponsive_at", Value.vDtStr now)] now).2
          aid ["assigned", "in_progress"] =
          db.tasks.filter (agentTasksPred aid ["assigned", "in_progress"]) := by
        simp [get_agent_tasks, hne, hut]
      have hsubl : List.Sublist (db.tasks.filter
          (agentTasksPred aid ["assigned", "in_progress"])) db.tasks :=
        List.filter_sublist _
      have hcountA : ∀ s', (db.tasks.filter
          (agentTasksPred aid ["assigned", "in_progress"])).countP
            (taskIdIs s') ≤ 1 :=
        fun s' => le_trans (hsubl.countP_le _) (hcount s')
      have hidsA : ∀ d ∈ db.tasks.filter
          (agentTasksPred aid ["assigned", "in_progress"]),
          ∃ s', getField d "task_id" = some (Value.vStr s') := by
        intro d hd
        obtain ⟨s', _, hs'⟩ := hids d (List.mem_filter.mp hd).1
          (List.mem_filter.mp hd).2
        exact ⟨s', hs'⟩
      have hpwA := pairwise_distinct_of_countP _ hcountA hidsA
      have hmemA : t ∈ db.tasks.filter
          (agentTasksPred aid ["assigned", "in_progress"]) :=
        List.mem_filter.mpr ⟨hmem, hpred⟩
      have hloop := (reassignLoop_find (Value.vStr aid) now
        (db.tasks.filter (agentTasksPred aid ["assigned", "in_progress"]))
        _ tid t htne hfdb hpwA hidsA).1 hmemA
      obtain ⟨f1, f2, f3, f4⟩ := taskStateTransform_fields t "created"
        (reassignMeta (Value.vStr aid)) now (by simp [reassignMeta])
      refine ⟨setTops t (taskStateUpdate "created"
        (reassignMeta (Value.vStr aid)) now), ?_, f1,
        f4 "assigned_to" (by decide) (by decide) (by decide), f3⟩
      show (resolve_unresponsive_agent db qs inc now).2.1.tasks.find?
        (taskIdIs tid) = _
      rw [h21, hactive]
      exact hloop

/-- C3 witness: the amended behaviour on the concrete store `c3db` —
detection fires for `developer`, the agent ends in `error`, and task `T1`
ends `created` with replaced metadata and untouched `assigned_to`. -/
theorem unresponsive_agent_resolution_spec_witness :
    (∃ i ∈ check_agent_health c3db 400,
      i.type = .agentUnresponsive ∧
        i.agent_id = some (Value.vStr "developer")) ∧
    (∃ a', get_agent_state
        (resolve_unresponsive_agent c3db emptyQueues c3inc 400).2.1
        "developer" = some a' ∧
      getField a' "status" = some (Value.vStr "error")) ∧
    (∃ t', get_task
        (resolve_unresponsive_agent c3db emptyQueues c3inc 400).2.1 "T1" =
        some t' ∧
      getField t' "status" = some (Value.vStr "created") ∧
      getField t' "assigned_to" = getField c3task "assigned_to" ∧
      getField t' "metadata" =
        some (Value.vObj (reassignMeta (Value.vStr "developer")))) := by
  have h := unresponsive_agent_resolution_spec c3db emptyQueues 400 0
    "developer" c3agent c3inc
  have hwf : ∀ aid' ∈ (["manager", "developer"] : List String), ∀ a',
      get_agent_state c3db aid' = some a' →
      (getFieldD a' "last_heartbeat" Value.vNull).truthy = true →
      ∃ ts, getFieldD a' "last_heartbeat" Value.vNull = Value.vDtStr ts := by
    intro aid' hm a' ha' _
    have hm' : aid' = "manager" ∨ aid' = "developer" := by simpa using hm
    rcases hm' with h1 | h1
    · subst h1
      rw [show get_agent_state c3db "manager" = none from rfl] at ha'
      cases ha'
    · subst h1
      rw [show get_agent_state c3db "developer" = some c3agent from rfl]
        at ha'
      injection ha' with h2
      subst h2
      exact ⟨0, rfl⟩
  have h2 := h.2 rfl (by decide) (by decide)
    (by
      intro s
      by_cases hq : taskIdIs s c3task = true <;>
        simp [c3db, List.countP_cons, hq])
    (by
      intro t ht _
      have : t = c3task := by simpa [c3db] using ht
      subst this
      exact ⟨"T1", by decide, rfl⟩)
  refine ⟨h.1 (by decide) hwf (by decide) (by decide) (by decide), h2.1, ?_⟩
  exact h2.2 c3task "T1" (by simp [c3db]) (by decide) rfl

/-- Every stalled-task issue carries the `task_id` value of one of the
source tasks. -/
lemma stalledIncs_task_id (now : Int) :
    ∀ ts : List Doc, ∀ i ∈ stalledIncs ts now,
      ∃ t ∈ ts, ∃ v, getField t "task_id" = some v ∧
        i.task_id = some v := by
  intro ts
  induction ts with
  | nil => intro i h; simp [stalledIncs] at h
  | cons t rest ih =>
      intro i h
      cases hg : getField t "task_id" with
      | none =>
          simp only [stalledIncs, hg] at h
          simp at h
      | some tid =>
          simp only [stalledIncs, hg] at h
          rcases List.mem_cons.mp h with h1 | h1
          · exact ⟨t, List.mem_cons_self t rest, tid, hg, by rw [h1]⟩
          · obtain ⟨t', ht', v, hv1, hv2⟩ := ih i h1
            exact ⟨t', List.mem_cons_of_mem t ht', v, hv1, hv2⟩

/-- Every issue the missing-message loop emits has type
`task_in_db_not_queue`. -/
lemma missingMsgIncs_type (now : Int) (qids : List Value) :
    ∀ dts : List (Value × Doc), ∀ i ∈ missingMsgIncs dts qids now,
      i.type = SyncIncType.taskInDbNotQueue := by
  intro dts
  induction dts with
  | nil => intro i h; simp [missingMsgIncs] at h
  | cons p rest ih =>
      intro i h
      obtain ⟨tid, task⟩ := p
      cases hg : getField task "status" with
      | none =>
          simp only [missingMsgIncs, hg] at h
          simp at h
      | some st =>
          simp only [missingMsgIncs, hg] at h
          rcases List.mem_append.mp h with h1 | h1
          · split at h1
            · have h2 : i = _ := List.mem_singleton.mp h1
              rw [h2]
            · simp at h1
          · exact ih i h1

/-- The orphan-detection loop runs over the stubbed queue peek, so it can
never produce an issue: every queue appears empty. -/
lemma orphanIncs_empty (qs : Queues) (ids : List Value) (now : Int) :
    orphanIncs (get_all_queue_messages qs) ids now = [] := rfl

/-- C7 counterexample.  Two of the four drift cases are re-detected by the
very next pass after their resolution succeeds: resolving an unresponsive
agent never refreshes its `last_heartbeat`, so the same agent is flagged
again; and a re-published assignment message is invisible to the stubbed
queue peek, so the same `assigned` task is flagged missing again. -/
theorem resolved_drift_cases_redetected :
    (check_agent_health c3db 400).length = 1 ∧
    (resolve_unresponsive_agent c3db emptyQueues c3inc 400).1 = true ∧
    (check_agent_health
      (resolve_unresponsive_agent c3db emptyQueues c3inc 400).2.1
      400).length = 1 ∧
    (check_queue_database_consistency c3db emptyQueues 400).length = 1 ∧
    (resolve_missing_queue_message c3db emptyQueues c7incB 400).1 = true ∧
    (check_queue_database_consistency
      (resolve_missing_queue_message c3db emptyQueues c7incB 400).2.1
      (resolve_missing_queue_message c3db emptyQueues c7incB 400).2.2
      400).length = 1 := by
  refine ⟨by decide, by decide, by decide, by decide, by decide, by decide⟩

/-- C7 amended.  Idempotence holds for only two of the four drift cases:
the orphaned-message case vacuously, because the stubbed queue peek means
detection only ever produces `task_in_db_not_queue` issues; and the
stalled-task case genuinely, because the resolution resets the task to
`assigned`, which removes it from the `in_progress` detection query of
every later pass.  The unresponsive-agent and missing-message resolutions
are re-detected by the very next pass. -/
theorem resolution_idempotence_spec :
    (∀ (db : Db) (qs : Queues) (now : Int),
      ∀ i ∈ check_queue_database_consistency db qs now,
        i.type = SyncIncType.taskInDbNotQueue) ∧
    (∀ (db : Db) (qs : Queues) (inc : SyncInc) (now now' : Int)
        (tid : String) (t0 : Doc),
      inc.task_id = some (Value.vStr tid) →
      tid ≠ "" →
      get_task db tid = some t0 →
      (∀ s, db.tasks.countP (taskIdIs s) ≤ 1) →
      (check_stalled_tasks
        (resolve_stalled_task db qs inc now).2.1 now').filter
        (fun i => i.task_id = some (Value.vStr tid)) = []) ∧
    (resolve_unresponsive_agent c3db emptyQueues c3inc 400).1 = true ∧
    (check_agent_health
      (resolve_unresponsive_agent c3db emptyQueues c3inc 400).2.1
      400).length = 1 ∧
    (resolve_missing_queue_message c3db emptyQueues c7incB 400).1 = true ∧
    (check_queue_database_consistency
      (resolve_missing_queue_message c3db emptyQueues c7incB 400).2.1
      (resolve_missing_queue_message c3db emptyQueues c7incB 400).2.2
      400).length = 1 := by
  refine ⟨?_, ?_, by decide, by decide, by decide, by decide⟩
  · intro db qs now i hi
    simp only [check_queue_database_consistency, orphanIncs_empty,
      List.nil_append] at hi
    exact missingMsgIncs_type now _ _ i hi
  · intro db qs inc now now' tid t0 hinc hne ht0 hcount
    have ht0' : db.tasks.find? (taskIdIs tid) = some t0 := ht0
    have hdb : (resolve_stalled_task db qs inc now).2.1 =
        (update_task_state db tid "assigned"
          [("stalled_at", Value.vDtStr now),
           ("reassigned", Value.vBool true),
           ("previous_duration",
            getFieldD inc.details "duration" Value.vNull)] now).2 := by
      simp only [resolve_stalled_task, hinc, Option.getD_some, Value.asStr]
      split
      · split
        · rfl
        · rfl
      · rfl
    rw [List.filter_eq_nil_iff]
    intro i hi
    simp only [decide_eq_true_eq]
    intro hip
    rw [hdb] at hi
    simp only [check_stalled_tasks] at hi
    obtain ⟨t, htmem, v, hgv, hiv⟩ := stalledIncs_task_id now' _ i hi
    have hv : v = Value.vStr tid := by simpa using hiv.symm.trans hip
    subst hv
    have htm := List.mem_filter.mp htmem
    have hqt : taskIdIs tid t = true := by simp [taskIdIs, hgv]
    have hfind := update_task_state_find_self db tid "assigned"
      [("stalled_at", Value.vDtStr now),
       ("reassigned", Value.vBool true),
       ("previous_duration",
        getFieldD inc.details "duration" Value.vNull)] now t0 ht0' hne
      (by decide)
    have hcount' : ((update_task_state db tid "assigned"
        [("stalled_at", Value.vDtStr now),
         ("reassigned", Value.vBool true),
         ("previous_duration",
          getFieldD inc.details "duration" Value.vNull)]
        now).2).tasks.countP (taskIdIs tid) ≤ 1 := by
      rw [update_task_state_tasks db tid "assigned" _ now hne (by decide),
        countP_updateOne _ _ _
          (fun d => taskIdIs_setTops_update tid "assigned" _ now d)]
      exact hcount tid
    have ht : t = setTops t0 (taskStateUpdate "assigned"
        [("stalled_at", Value.vDtStr now),
         ("reassigned", Value.vBool true),
         ("previous_duration",
          getFieldD inc.details "duration" Value.vNull)] now) :=
      mem_eq_find?_of_countP_le_one (taskIdIs tid) _ _ t hcount' hfind
        htm.1 hqt
    have hst : getField t "status" = some (Value.vStr "assigned") := by
      rw [ht]
      exact (taskStateTransform_fields t0 "assigned" _ now (by simp)).1
    have h1 := htm.2
    simp only [Bool.and_eq_true, decide_eq_true_eq] at h1
    rw [hst] at h1
    simp at h1

/-- C7 witness: stalled-task idempotence on the concrete store — after
resolving the stalled task `T7` at time 4000, a stalled-task check at any
later time (here 8000) reports nothing for `T7`. -/
theorem resolution_idempotence_spec_witness :
    (check_stalled_tasks
      (resolve_stalled_task c7sdb emptyQueues c7sinc 4000).2.1 8000).filter
      (fun i => i.task_id = some (Value.vStr "T7")) = [] :=
  resolution_idempotence_spec.2.1 c7sdb emptyQueues c7sinc 4000 8000 "T7"
    c7stask rfl (by decide) rfl
    (by
      intro s
      by_cases h : taskIdIs s c7stask = true <;>
        simp [c7sdb, List.countP_cons, h])

end AgentNetwork
